import Mathlib

/-!
Verification development for the ClimateBud query-to-analysis pipeline.

The definitions below are a shallow embedding of the code in
src/core/query_processor.py and src/core/analysis_engine.py together with
the configuration constants of src/config.py.  Python datetimes are
modelled by their proleptic-Gregorian day ordinal (an integer); pandas
data frames are modelled as association lists of named, aligned columns;
numeric float cells are modelled as exact rationals, and the statistical
quantities computed by scipy (Pearson r, ordinary-least-squares t
statistic, Student t survival function) are modelled over the reals.
Fallible Python code (KeyError, OverflowError, pandas parse errors) is
modelled with the Except monad.
-/

deriving instance DecidableEq for Except

/-! ### Basic character and string utilities -/

/-- Model of Python str.lower for the ASCII inputs considered here. -/
def lowerChars (s : String) : List Char :=
  s.data.map Char.toLower

/-- Check whether the first list is a contiguous leading segment of the second. -/
def startsWith : List Char → List Char → Bool
  | [], _ => true
  | _ :: _, [] => false
  | a :: as, b :: bs => a == b && startsWith as bs

/-- Model of the Python "needle in haystack" substring test. -/
def substrOf (needle : List Char) : List Char → Bool
  | [] => startsWith needle []
  | c :: cs => startsWith needle (c :: cs) || substrOf needle cs

/-- ASCII decimal digit test (Python regex digit class on ASCII input). -/
def isDig (c : Char) : Bool := '0' ≤ c && c ≤ '9'

/-- Uppercase ASCII letter test, the regex class used for state abbreviations. -/
def isUpperAZ (c : Char) : Bool := 'A' ≤ c && c ≤ 'Z'

/-- Python regex word character (ASCII scope). -/
def isWordChar (c : Char) : Bool := c.isAlphanum || c == '_'

/-- Numeric value of a digit character. -/
def digVal (c : Char) : ℕ := c.toNat - '0'.toNat

/-- Value of a digit string, as Python int of a decimal digit run. -/
def digitsToNat (l : List Char) : ℕ :=
  l.foldl (fun a c => 10 * a + digVal c) 0

/-! ### Dates

A Python datetime is identified with its proleptic-Gregorian day ordinal
(datetime.toordinal), valid between ordinal 1 (year 1, Jan 1) and
ordinal 3652059 (year 9999, Dec 31).  The fallback time-range extractor
also fabricates plain "YYYY-01-01"/"YYYY-12-31" strings without ever
constructing a datetime; those are kept as year/month/day triples.  -/

/-- Number of leap years in 1..y (proleptic Gregorian), via floor division. -/
def leapsThrough (y : Int) : Int :=
  Int.fdiv y 4 - Int.fdiv y 100 + Int.fdiv y 400

/-- Gregorian leap-year test. -/
def isLeapYear (y : Int) : Bool :=
  (y % 4 == 0 && y % 100 != 0) || y % 400 == 0

/-- Days strictly before month m (1-12) in a year of the given leapness. -/
def daysBeforeMonth (leap : Bool) (m : Int) : Int :=
  let base :=
    if m ≤ 1 then 0 else if m ≤ 2 then 31 else if m ≤ 3 then 59
    else if m ≤ 4 then 90 else if m ≤ 5 then 120 else if m ≤ 6 then 151
    else if m ≤ 7 then 181 else if m ≤ 8 then 212 else if m ≤ 9 then 243
    else if m ≤ 10 then 273 else if m ≤ 11 then 304 else 334
  if leap && m ≥ 3 then base + 1 else base

/-- Calendar date as year/month/day, as rendered into the strings of the
year branch of the fallback time-range extractor. -/
structure Ymd where
  y : Int
  m : Int
  d : Int
deriving DecidableEq, Repr

/-- Day ordinal of a calendar date (date.toordinal for valid dates). -/
def Ymd.ord (x : Ymd) : Int :=
  365 * (x.y - 1) + leapsThrough (x.y - 1) + daysBeforeMonth (isLeapYear x.y) x.m + x.d

/-- A date value of the fallback parser: either an actual datetime
(identified by its ordinal) or a fabricated year/month/day string. -/
inductive DateVal where
  | ofOrd (n : Int)
  | ofYmd (x : Ymd)
deriving DecidableEq, Repr

/-- Timeline position of a date value; Python compares datetimes (and the
dates denoted by the fabricated ISO strings) chronologically. -/
def DateVal.ord : DateVal → Int
  | .ofOrd n => n
  | .ofYmd x => x.ord

/-- Smallest valid Python datetime ordinal (year 1, Jan 1). -/
def minDateOrd : Int := 1

/-! ### Configuration (src/config.py) -/

/-- Configured default state abbreviation. -/
def DEFAULT_STATE : String := "AL"

/-- Configured default county name. -/
def DEFAULT_COUNTY : String := "Baldwin"

/-! ### Query processor data model (src/core/query_processor.py) -/

/-- Location part of a parsed query. -/
structure Location where
  state : Option String
  county : Option String
  city : Option String
deriving DecidableEq, Repr

/-- Time range part of a parsed query. -/
structure TimeRange where
  startDate : DateVal
  endDate : DateVal
deriving DecidableEq, Repr

/-- Structured result of QueryProcessor.process_query; filters is the
refinement dictionary, always empty on the fallback path. -/
structure ParsedQuery where
  queryType : String
  location : Location
  timeRange : TimeRange
  dataSources : List String
  visualizationType : String
  filters : List (String × String)
  originalQuery : String
deriving DecidableEq, Repr

/-- The fixed 50-entry state name to abbreviation table of
QueryProcessor._extract_location, in source (insertion) order. -/
def statesTable : List (String × String) :=
  [("alabama", "AL"), ("alaska", "AK"), ("arizona", "AZ"), ("arkansas", "AR"),
   ("california", "CA"), ("colorado", "CO"), ("connecticut", "CT"), ("delaware", "DE"),
   ("florida", "FL"), ("georgia", "GA"), ("hawaii", "HI"), ("idaho", "ID"),
   ("illinois", "IL"), ("indiana", "IN"), ("iowa", "IA"), ("kansas", "KS"),
   ("kentucky", "KY"), ("louisiana", "LA"), ("maine", "ME"), ("maryland", "MD"),
   ("massachusetts", "MA"), ("michigan", "MI"), ("minnesota", "MN"), ("mississippi", "MS"),
   ("missouri", "MO"), ("montana", "MT"), ("nebraska", "NE"), ("nevada", "NV"),
   ("new hampshire", "NH"), ("new jersey", "NJ"), ("new mexico", "NM"), ("new york", "NY"),
   ("north carolina", "NC"), ("north dakota", "ND"), ("ohio", "OH"), ("oklahoma", "OK"),
   ("oregon", "OR"), ("pennsylvania", "PA"), ("rhode island", "RI"), ("south carolina", "SC"),
   ("south dakota", "SD"), ("tennessee", "TN"), ("texas", "TX"), ("utah", "UT"),
   ("vermont", "VT"), ("virginia", "VA"), ("washington", "WA"), ("west virginia", "WV"),
   ("wisconsin", "WI"), ("wyoming", "WY")]

/-- First full state name of the table occurring in the lowercased query
(the for loop with break over the insertion-ordered dict). -/
def findFullStateName (qLower : List Char) : Option String :=
  (statesTable.find? fun p => substrOf p.1.data qLower).map Prod.snd

/-- One attempt of the regex at a fixed position: two uppercase letters
preceded and followed by a word boundary.  prev is the character before
the current position, if any. -/
def abbrevHere (prev : Option Char) : List Char → Option String
  | a :: b :: rest =>
      if isUpperAZ a && isUpperAZ b
          && (match prev with | none => true | some p => !isWordChar p)
          && (match rest with | [] => true | r :: _ => !isWordChar r) then
        some (String.mk [a, b])
      else none
  | _ => none

/-- Leftmost match of the two-letter-token regex over the original query. -/
def findAbbrevToken : Option Char → List Char → Option String
  | _, [] => none
  | prev, c :: cs =>
      match abbrevHere prev (c :: cs) with
      | some s => some s
      | none => findAbbrevToken (some c) cs

/-- Whether a string is one of the 50 valid state abbreviations. -/
def isValidAbbrev (s : String) : Bool :=
  statesTable.any fun p => p.2 == s

/-- Python str.title of a word-character run: uppercase each letter that
begins an alphabetic run, lowercase the other letters. -/
def titleChars : Bool → List Char → List Char
  | _, [] => []
  | prevAlpha, c :: cs =>
      (if c.isAlpha then (if prevAlpha then c.toLower else c.toUpper) else c)
        :: titleChars c.isAlpha cs

/-- Leftmost match of the county regex: a word-character run, whitespace,
then the literal word county; returns the title-cased run. -/
def findCountyFrom (prevWord : Bool) (l : List Char) : Option String :=
  match l with
  | [] => none
  | c :: cs =>
      if !prevWord && isWordChar c then
        let run := (c :: cs).takeWhile isWordChar
        let rest := (c :: cs).dropWhile isWordChar
        let ws := rest.takeWhile Char.isWhitespace
        let tail := rest.dropWhile Char.isWhitespace
        if !ws.isEmpty && startsWith "county".data tail then
          some (String.mk (titleChars false run))
        else findCountyFrom (isWordChar c) cs
      else findCountyFrom (isWordChar c) cs

/-- The two-letter token found by the abbreviation regex, kept only when
it is a valid state abbreviation. -/
def abbrevStateToken (query : String) : Option String :=
  match findAbbrevToken none query.data with
  | some tok => if isValidAbbrev tok then some tok else none
  | none => none

/-- QueryProcessor._extract_location: first full state names, then a
two-letter abbreviation token (which overwrites any full-name match),
then the county regex, with configured defaults for both fields. -/
def extractLocation (query : String) : Location :=
  { state := some ((match abbrevStateToken query with
      | some tok => some tok
      | none => findFullStateName (lowerChars query)).getD DEFAULT_STATE),
    county := some ((findCountyFrom false (lowerChars query)).getD DEFAULT_COUNTY),
    city := none }

/-- Leftmost maximal digit run that is followed by whitespace and the word
year, as matched by the years regex of _extract_time_range; returns its
numeric value. -/
def findYearsNumber (l : List Char) : Option ℕ :=
  match l with
  | [] => none
  | c :: cs =>
      if isDig c then
        let run := (c :: cs).takeWhile isDig
        let rest := (c :: cs).dropWhile isDig
        let ws := rest.takeWhile Char.isWhitespace
        let tail := rest.dropWhile Char.isWhitespace
        if !ws.isEmpty && startsWith "year".data tail then
          some (digitsToNat run)
        else findYearsNumber cs
      else findYearsNumber cs

/-- Leftmost position where four consecutive digits start; the regex for a
bare year has no word boundary, so any four digits in a row match. -/
def findFourDigitYear : List Char → Option ℕ
  | a :: b :: c :: d :: rest =>
      if isDig a && isDig b && isDig c && isDig d then
        some (digitsToNat [a, b, c, d])
      else findFourDigitYear (b :: c :: d :: rest)
  | _ => none

/-- QueryProcessor._parse_relative_time on the strings "last N years" fed
to it by _extract_time_range: subtract 365*N days from now.  Python
datetime subtraction raises OverflowError when the result falls before
the minimum representable date (or the timedelta itself overflows); both
are modelled as the error case. -/
def parseRelativeYears (now : Int) (n : ℕ) : Except String TimeRange :=
  if now - 365 * (n : Int) < minDateOrd then
    .error "OverflowError: date value out of range"
  else
    .ok { startDate := .ofOrd (now - 365 * (n : Int)), endDate := .ofOrd now }

/-- QueryProcessor._extract_time_range: an N-years phrase takes precedence
over a bare 4-digit year; a bare year gives the Jan 1 - Dec 31 strings of
that year; otherwise the default last-3-years window. -/
def extractTimeRange (now : Int) (query : String) : Except String TimeRange :=
  match findYearsNumber (lowerChars query) with
  | some n => parseRelativeYears now n
  | none =>
      match findFourDigitYear query.data with
      | some y =>
          .ok { startDate := .ofYmd ⟨(y : Int), 1, 1⟩,
                endDate := .ofYmd ⟨(y : Int), 12, 31⟩ }
      | none => parseRelativeYears now 3

/-- Keyword lists of _fallback_parse, in the order tested. -/
def spillWords : List String := ["spill", "sso", "overflow", "sewage"]

/-- Keywords for the repeat-violators class. -/
def repeatWords : List String := ["repeat", "chronic", "multiple", "frequent"]

/-- Keywords for the weather-correlation class. -/
def weatherWords : List String := ["weather", "rain", "storm", "correlat"]

/-- Keywords for the violation-trends class. -/
def trendWords : List String := ["trend", "over time", "history"]

/-- Keywords for the facility-search class. -/
def findWords : List String := ["find", "search", "where is"]

/-- Whether any keyword of the list occurs in the lowercased query. -/
def anyWordIn (ws : List String) (qLower : List Char) : Bool :=
  ws.any fun w => substrOf w.data qLower

/-- The deterministic fallback classifier of _fallback_parse: keyword
membership tested in a fixed priority order. -/
def detectQueryType (query : String) : String :=
  if anyWordIn spillWords (lowerChars query) then "spill_analysis"
  else if anyWordIn repeatWords (lowerChars query) then "repeat_violators"
  else if anyWordIn weatherWords (lowerChars query) then "weather_correlation"
  else if anyWordIn trendWords (lowerChars query) then "violation_trends"
  else if anyWordIn findWords (lowerChars query) then "facility_search"
  else "general_overview"

/-- QueryProcessor._infer_data_sources lookup table. -/
def inferDataSources (queryType : String) : List String :=
  if queryType == "spill_analysis" then ["epa"]
  else if queryType == "violation_trends" then ["epa"]
  else if queryType == "repeat_violators" then ["epa"]
  else if queryType == "weather_correlation" then ["epa", "noaa"]
  else if queryType == "facility_search" then ["epa"]
  else if queryType == "general_overview" then ["epa", "census"]
  else ["epa"]

/-- QueryProcessor._infer_visualization lookup table. -/
def inferVisualization (queryType : String) : String :=
  if queryType == "spill_analysis" then "combined"
  else if queryType == "violation_trends" then "time_series"
  else if queryType == "repeat_violators" then "bar_chart"
  else if queryType == "weather_correlation" then "scatter"
  else if queryType == "facility_search" then "map"
  else if queryType == "general_overview" then "combined"
  else "combined"

/-- QueryProcessor._fallback_parse, the path process_query takes when no
language-model client is configured; now is the current datetime ordinal. -/
def fallbackParse (now : Int) (query : String) : Except String ParsedQuery := do
  let queryType := detectQueryType query
  let location := extractLocation query
  let timeRange ← extractTimeRange now query
  return { queryType := queryType,
           location := location,
           timeRange := timeRange,
           dataSources := inferDataSources queryType,
           visualizationType := inferVisualization queryType,
           filters := [],
           originalQuery := query }

/-! ### Data frames

A pandas DataFrame is modelled as an association list of named columns of
equal length.  Float cells are exact rationals, datetime cells carry a
calendar date, and NaN/NaT/None are the null cell. -/

/-- One cell of a data frame. -/
inductive Cell where
  | null : Cell
  | str : String → Cell
  | num : ℚ → Cell
  | date : Ymd → Cell
deriving DecidableEq, Repr

/-- A data frame: named columns, aligned by position. -/
structure DataFrame where
  cols : List (String × List Cell)
deriving DecidableEq, Repr

/-- Number of rows (length of the first column; 0 for no columns). -/
def DataFrame.nRows (df : DataFrame) : ℕ :=
  match df.cols with
  | [] => 0
  | c :: _ => c.2.length

/-- Column membership, the Python "name in df.columns" test. -/
def DataFrame.hasCol (df : DataFrame) (n : String) : Bool :=
  df.cols.any fun c => c.1 == n

/-- The cells of a named column (unspecified, empty, when absent). -/
def DataFrame.col (df : DataFrame) (n : String) : List Cell :=
  ((df.cols.find? fun c => c.1 == n).map Prod.snd).getD []

/-- pandas df.empty: any axis of length zero. -/
def DataFrame.isEmpty (df : DataFrame) : Bool :=
  df.cols.isEmpty || df.nRows == 0

/-- Assignment df[name] = values: overwrite in place, or append a new
column at the end. -/
def DataFrame.setCol (df : DataFrame) (n : String) (vals : List Cell) : DataFrame :=
  if df.hasCol n then
    ⟨df.cols.map fun c => if c.1 == n then (n, vals) else c⟩
  else
    ⟨df.cols ++ [(n, vals)]⟩

/-- Well-formedness: aligned column lengths and distinct column names. -/
def DataFrame.WF (df : DataFrame) : Prop :=
  (∀ c ∈ df.cols, c.2.length = df.nRows) ∧ (df.cols.map Prod.fst).Nodup

/-- pd.to_datetime over a column: succeeds when every cell already carries
a date, the only shape exercised by this pipeline; anything else is a
parse error. -/
def parseDateCol (cells : List Cell) : Except String (List Ymd) :=
  match cells.mapM (fun c => match c with | .date d => some d | _ => none) with
  | some ds => .ok ds
  | none => .error "to_datetime: unparseable value"

/-- Python round-half-to-even of a rational to an integer. -/
def rhe (q : ℚ) : Int :=
  if q - (⌊q⌋ : ℚ) < 1/2 then ⌊q⌋
  else if q - (⌊q⌋ : ℚ) > 1/2 then ⌊q⌋ + 1
  else if ⌊q⌋ % 2 == 0 then ⌊q⌋ else ⌊q⌋ + 1

/-- Python round(x, 2) on exact rationals. -/
def round2 (q : ℚ) : ℚ := (rhe (q * 100) : ℚ) / 100

/-- pandas mean with default NaN skipping: mean of the numeric cells
(0 when there are none; pandas would give NaN, a case the pipeline never
feeds onward in the situations analysed here). -/
def meanCells (cells : List Cell) : ℚ :=
  let nums := cells.filterMap fun c => match c with | .num q => some q | _ => none
  nums.sum / nums.length

/-- Occurrences of a value in a list. -/
def countOcc (x : Int) (l : List Int) : ℕ := l.countP (fun a => a == x)

/-- Insert into a sorted list of integers, keeping ascending order. -/
def insertAsc (x : Int) : List Int → List Int
  | [] => [x]
  | y :: ys => if x ≤ y then x :: y :: ys else y :: insertAsc x ys

/-- Ascending insertion sort of integers. -/
def sortAsc (l : List Int) : List Int := l.foldr insertAsc []

/-- Distinct values in first-appearance order (seen-accumulator form). -/
def dedupKeepAux (seen : List Int) : List Int → List Int
  | [] => []
  | x :: xs =>
      if seen.contains x then dedupKeepAux seen xs
      else x :: dedupKeepAux (x :: seen) xs

/-- Distinct values in first-appearance order. -/
def dedupKeep (l : List Int) : List Int := dedupKeepAux [] l

/-! ### Statistics (scipy)

scipy.stats.linregress data path for n greater than 2, with its literal
guards: the r denominator zero test, the clamp of r to the unit interval
and the TINY = 1e-20 regulariser in the t statistic; the two-sided
p-value is 2 times the Student t survival function at abs t with n - 2
degrees of freedom.  The survival function of the symmetric, unit-mass
Student t density is expressed as 1/2 minus the integral of the density
from 0 to x. -/

/-- Student t probability density with nu degrees of freedom. -/
noncomputable def tDensity (nu : ℕ) (t : ℝ) : ℝ :=
  Real.Gamma (((nu : ℝ) + 1) / 2) / (Real.sqrt (nu * Real.pi) * Real.Gamma ((nu : ℝ) / 2)) *
    (1 + t ^ 2 / (nu : ℝ)) ^ (-(((nu : ℝ) + 1) / 2))

/-- Student t survival function: P(T > x) for the symmetric unit-mass
density, written as 1/2 minus the mass between 0 and x. -/
noncomputable def tSF (nu : ℕ) (x : ℝ) : ℝ :=
  1 / 2 - ∫ t in (0:ℝ)..x, tDensity nu t

/-- Two-sided p-value of a t statistic with nu degrees of freedom. -/
noncomputable def pTwoSided (nu : ℕ) (t : ℝ) : ℝ :=
  2 * tSF nu |t|

/-- Sum of centred products of a list against its index, over the reals:
the building block of the least-squares slope and correlation. -/
noncomputable def listMean (l : List ℝ) : ℝ := l.sum / l.length

/-- Centred second moment sum. -/
noncomputable def ssDev (l : List ℝ) : ℝ :=
  (l.map fun a => (a - listMean l) ^ 2).sum

/-- Centred cross-product sum of two equal-length lists. -/
noncomputable def ssCross (xs ys : List ℝ) : ℝ :=
  (List.zipWith (fun a b => (a - listMean xs) * (b - listMean ys)) xs ys).sum

/-- The x values of the trend regression: bucket indices 0..n-1. -/
noncomputable def idxList (n : ℕ) : List ℝ := (List.range n).map fun i : ℕ => (i : ℝ)

/-- scipy linregress correlation coefficient with its zero-variance guard
and unit clamp. -/
noncomputable def lrR (xs ys : List ℝ) : ℝ :=
  if ssDev xs = 0 ∨ ssDev ys = 0 then 0
  else
    let r0 := ssCross xs ys / Real.sqrt (ssDev xs * ssDev ys)
    if r0 > 1 then 1 else if r0 < -1 then -1 else r0

/-- scipy linregress t statistic with the TINY regulariser. -/
noncomputable def lrT (xs ys : List ℝ) : ℝ :=
  let r := lrR xs ys
  let df : ℕ := xs.length - 2
  r * Real.sqrt ((df : ℝ) / ((1 - r + 1e-20) * (1 + r + 1e-20)))

/-- scipy linregress two-sided p-value of the slope. -/
noncomputable def lrP (xs ys : List ℝ) : ℝ :=
  pTwoSided (xs.length - 2) (lrT xs ys)

/-- scipy linregress slope. -/
noncomputable def lrSlope (xs ys : List ℝ) : ℝ :=
  ssCross xs ys / ssDev xs

/-! ### Analysis engine (src/core/analysis_engine.py) -/

/-- Chronological key of the calendar month of a date, the model of
pandas to_period M: months order by year then month. -/
def monthKey (d : Ymd) : Int := d.y * 12 + d.m

/-- AnalysisEngine._calculate_trend grouping step: per-month sizes of the
date list, in ascending month order (pandas groupby sorts its keys). -/
def monthlyCounts (dates : List Ymd) : List ℕ :=
  let keys := sortAsc (dedupKeep (dates.map monthKey))
  keys.map fun k => countOcc k (dates.map monthKey)

/-- Trend classification of a monthly count series, as in
_calculate_trend after the grouping: fewer than 3 buckets is
insufficient data, otherwise classify by the least-squares slope of
count against bucket index and its two-sided p-value. -/
noncomputable def trendOfCounts (counts : List ℕ) : String :=
  if counts.length < 3 then "insufficient_data"
  else if lrP (idxList counts.length) (counts.map fun k : ℕ => (k : ℝ)) > 0.05 then "stable"
  else if lrSlope (idxList counts.length) (counts.map fun k : ℕ => (k : ℝ)) > 0 then
    "increasing"
  else "decreasing"

/-- A monthly count series is strictly increasing (used to state the
monotone-series claims). -/
def strictIncr : List ℕ → Bool
  | a :: b :: r => (a < b : Bool) && strictIncr (b :: r)
  | _ => true

/-- AnalysisEngine._calculate_trend. -/
noncomputable def calculateTrend (dates : List Ymd) : String :=
  trendOfCounts (monthlyCounts dates)

/-! ### Generic grouping and sorting helpers used by the engine model -/

/-- Distinct elements in first-appearance order (seen-accumulator form). -/
def dedupKeepByAux {α : Type} [DecidableEq α] (seen : List α) : List α → List α
  | [] => []
  | x :: xs =>
      if x ∈ seen then dedupKeepByAux seen xs
      else x :: dedupKeepByAux (x :: seen) xs

/-- Distinct elements in first-appearance order. -/
def dedupKeepBy {α : Type} [DecidableEq α] (l : List α) : List α := dedupKeepByAux [] l

/-- Insert keeping order by the given can-precede test; inserting x before
the first y with canPrecede x y keeps earlier-inserted equals behind. -/
def insertBy {α : Type} (canPrecede : α → α → Bool) (x : α) : List α → List α
  | [] => [x]
  | y :: ys => if canPrecede x y then x :: y :: ys else y :: insertBy canPrecede x ys

/-- Insertion sort; with a reflexive-on-ties canPrecede this is a stable
sort of the input order, the tie behaviour of pandas sort and nlargest. -/
def sortListBy {α : Type} (canPrecede : α → α → Bool) (l : List α) : List α :=
  l.foldr (insertBy canPrecede) []

/-- pandas nlargest(k, column): stable descending sort by the key, first
occurrences kept on ties, then the first k rows. -/
def nlargestBy {α : Type} (key : α → ℚ) (k : ℕ) (l : List α) : List α :=
  (sortListBy (fun a b => key a ≥ key b) l).take k

/-- Group sizes by integer key in ascending key order (pandas groupby
sorts its keys). -/
def groupCounts (keys : List Int) : List (Int × ℕ) :=
  (sortAsc (dedupKeep keys)).map fun k => (k, countOcc k keys)

/-- idxmax over ascending keys: the first key attaining the maximal count. -/
def peakKey (pairs : List (Int × ℕ)) : Int :=
  match pairs with
  | [] => 0
  | p :: ps => (ps.foldl (fun best q => if q.2 > best.2 then q else best) p).1

/-- pandas value_counts: distinct non-null cells, counted, in descending
count order (stable on ties), nulls dropped. -/
def valueCounts (cells : List Cell) : List (Cell × ℕ) :=
  let vals := cells.filter fun c => c ≠ Cell.null
  let pairs := (dedupKeepBy vals).map fun v => (v, vals.countP (fun a => a == v))
  sortListBy (fun a b => a.2 ≥ b.2) pairs

/-! ### Spill pattern analysis (analyze_spill_patterns and helpers) -/

/-- Result of _analyze_temporal_patterns. -/
structure TemporalFacet where
  byMonth : List (Int × ℕ)
  byYear : List (Int × ℕ)
  byQuarter : List (Int × ℕ)
  peakMonth : Int
  trend : String

/-- One hotspot entry of _identify_hotspots. -/
structure Hotspot where
  lat : ℚ
  lon : ℚ
  count : ℕ
  name : Cell

/-- Result of _analyze_spatial_patterns: the empty-cluster shape for
fewer than 2 valid coordinate rows, else centre, spread and hotspots. -/
inductive SpatialFacet where
  | noClusters
  | clusters (centerLat centerLon : ℚ) (spread : ℝ) (hotspots : List Hotspot)

/-- Result of _analyze_by_facility. -/
structure FacilityFacet where
  totalFacilities : ℕ
  topViolators : List (Cell × ℕ)
  singleIncidentFacilities : ℕ
  repeatViolatorCount : ℕ

/-- The result dictionary of analyze_spill_patterns on non-empty input;
facets are present according to which columns exist. -/
structure SpillResult where
  totalIncidents : ℕ
  dateRange : Option (Ymd × Ymd)
  temporal : Option TemporalFacet
  spatial : Option SpatialFacet
  severity : Option (List (Cell × ℕ))
  types : Option (List (Cell × ℕ))
  byFacility : Option FacilityFacet

/-- analyze_spill_patterns returns either the error-facet dictionary (for
empty input) or a result dictionary. -/
inductive SpillOut where
  | err (msg : String)
  | res (r : SpillResult)

/-- _get_date_range: prefer the violation_date column, else the date
column, else no facet; min and max of the parsed dates.  A NaT min or
max (empty column) would fail to format, modelled as an error. -/
def getDateRange (df : DataFrame) : Except String (Option (Ymd × Ymd)) :=
  if df.hasCol "violation_date" || df.hasCol "date" then do
    let c := if df.hasCol "violation_date" then "violation_date" else "date"
    let ds ← parseDateCol (df.col c)
    match ds with
    | [] => .error "min of empty dates"
    | d :: rest =>
        .ok (some (rest.foldl (fun a b => if b.ord < a.ord then b else a) d,
                   rest.foldl (fun a b => if b.ord > a.ord then b else a) d))
  else .ok none

/-- _analyze_temporal_patterns on the parsed date column: grouped counts
by month, year and quarter, the peak month, and the trend. -/
noncomputable def temporalFacet (ds : List Ymd) : TemporalFacet :=
  let byMonth := groupCounts (ds.map fun d => d.m)
  { byMonth := byMonth,
    byYear := groupCounts (ds.map fun d => d.y),
    byQuarter := groupCounts (ds.map fun d => Int.fdiv (d.m + 2) 3),
    peakMonth := peakKey byMonth,
    trend := trendOfCounts (monthlyCounts ds) }

/-- Rows with both coordinates present, with the aligned facility cell
(null placeholder when the column is absent). -/
def validCoordRows (df : DataFrame) : List (ℚ × ℚ × Cell) :=
  let fac := if df.hasCol "facility_name" then df.col "facility_name"
             else List.replicate df.nRows Cell.null
  ((df.col "latitude").zip ((df.col "longitude").zip fac)).filterMap fun r =>
    match r.1, r.2.1 with
    | .num la, .num lo => some (la, lo, r.2.2)
    | _, _ => none

/-- Coordinate bin of a row: both coordinates rounded half-even to two
decimals, the binning of _identify_hotspots. -/
def coordBin (r : ℚ × ℚ × Cell) : ℚ × ℚ :=
  ((rhe (r.1 * 100) : ℚ) / 100, (rhe (r.2.1 * 100) : ℚ) / 100)

/-- Can-precede test for ascending lexicographic bin order, the key order
pandas groupby produces. -/
def binLe (a b : ℚ × ℚ) : Bool :=
  a.1 < b.1 || (a.1 == b.1 && a.2 ≤ b.2)

/-- Rational mean of a list (groupby mean of the coordinate columns). -/
def ratMean (l : List ℚ) : ℚ := l.sum / l.length

/-- _identify_hotspots: the aggregation dictionary always references the
facility_name column (only the aggregation function is conditional), so
a frame without that column raises KeyError; otherwise bin rows by the
rounded coordinates, aggregate, and keep the 5 largest bins. -/
def identifyHotspots (hasFac : Bool) (rows : List (ℚ × ℚ × Cell)) :
    Except String (List Hotspot) :=
  if rows.isEmpty then .ok []
  else if !hasFac then
    .error "KeyError: column facility_name does not exist"
  else
    let bins := sortListBy binLe (dedupKeepBy (rows.map coordBin))
    let spots := bins.map fun b =>
      let grp := rows.filter fun r => coordBin r == b
      { lat := ratMean (grp.map fun r => r.1),
        lon := ratMean (grp.map fun r => r.2.1),
        count := grp.length,
        name := ((grp.map fun r => r.2.2).find? fun c => c ≠ Cell.null).getD Cell.null }
    .ok (nlargestBy (fun h => (h.count : ℚ)) 5 spots)

/-- Sample standard deviation (pandas std, ddof 1). -/
noncomputable def sampleStd (l : List ℝ) : ℝ :=
  Real.sqrt (ssDev l / ((l.length : ℝ) - 1))

/-- _analyze_spatial_patterns: fewer than 2 valid coordinate rows gives
the empty-cluster shape; else centroid, spread of distances from the
centroid, and hotspots (which can raise). -/
noncomputable def spatialFacet (df : DataFrame) : Except String SpatialFacet :=
  let v := validCoordRows df
  if v.length < 2 then .ok .noClusters
  else do
    let clat := ratMean (v.map fun r => r.1)
    let clon := ratMean (v.map fun r => r.2.1)
    let spread := sampleStd (v.map fun r =>
      Real.sqrt (((r.1 : ℝ) - (clat : ℝ)) ^ 2 + ((r.2.1 : ℝ) - (clon : ℝ)) ^ 2))
    let hs ← identifyHotspots (df.hasCol "facility_name") v
    .ok (.clusters clat clon spread hs)

/-- _analyze_by_facility from the facility column. -/
def byFacilityFacet (cells : List Cell) : FacilityFacet :=
  let vc := valueCounts cells
  { totalFacilities := vc.length,
    topViolators := vc.take 10,
    singleIncidentFacilities := vc.countP fun p => p.2 == 1,
    repeatViolatorCount := vc.countP fun p => decide (p.2 > 1) }

/-- The state of the caller's violations frame after
analyze_spill_patterns returns or raises: the date column is written
into the input frame (the frame is not copied first) once the date
parse of the date-range step has succeeded. -/
def spillInputAfter (df : DataFrame) : DataFrame :=
  if df.isEmpty then df
  else if df.hasCol "violation_date" then
    match parseDateCol (df.col "violation_date") with
    | .ok ds => df.setCol "date" (ds.map Cell.date)
    | .error _ => df
  else df

/-- The returned value (or exception) of analyze_spill_patterns. -/
noncomputable def analyzeSpillPatternsRes (df : DataFrame) : Except String SpillOut :=
  if df.isEmpty then .ok (.err "No violation data available")
  else do
    let dr ← getDateRange df
    let temporal ←
      if df.hasCol "violation_date" then do
        let ds ← parseDateCol (df.col "violation_date")
        pure (some (temporalFacet ds))
      else pure none
    let spatial ←
      if df.hasCol "latitude" && df.hasCol "longitude" then do
        let sp ← spatialFacet df
        pure (some sp)
      else pure none
    let severity := if df.hasCol "severity" then some (valueCounts (df.col "severity")) else none
    let types := if df.hasCol "violation_type" then some (valueCounts (df.col "violation_type")) else none
    let byFac := if df.hasCol "facility_name" then some (byFacilityFacet (df.col "facility_name")) else none
    pure (.res { totalIncidents := df.nRows,
                 dateRange := dr,
                 temporal := temporal,
                 spatial := spatial,
                 severity := severity,
                 types := types,
                 byFacility := byFac })

/-- AnalysisEngine.analyze_spill_patterns: the final state of the input
frame paired with the outcome. -/
noncomputable def analyzeSpillPatterns (df : DataFrame) :
    DataFrame × Except String SpillOut :=
  (spillInputAfter df, analyzeSpillPatternsRes df)

/-! ### Repeat violator analysis (analyze_repeat_violators) -/

/-- One row of the per-facility statistics frame. -/
structure FacStat where
  facilityName : String
  violationCount : ℕ
  firstViolation : Ymd
  lastViolation : Ymd
  primaryViolationType : String
  latitude : Cell
  longitude : Cell
  activeDays : Int
  violationsPerYear : ℚ
  category : String
deriving DecidableEq, Repr

/-- The result dictionary of analyze_repeat_violators on usable input. -/
structure RVResult where
  totalFacilities : ℕ
  chronicViolators : ℕ
  repeatViolators : ℕ
  occasionalViolators : ℕ
  topViolators : List FacStat
  highestFrequency : List FacStat
deriving DecidableEq, Repr

/-- analyze_repeat_violators returns the error-facet dictionary or a
result dictionary. -/
inductive RVOut where
  | err (msg : String)
  | res (r : RVResult)
deriving DecidableEq, Repr

/-- A joined row of the violations frame used by the facility grouping:
facility cell, parsed date, violation type cell, latitude, longitude. -/
def rvRows (df : DataFrame) (ds : List Ymd) : List (Cell × Ymd × Cell × Cell × Cell) :=
  (df.col "facility_name").zip (ds.zip ((df.col "violation_type").zip
    ((df.col "latitude").zip (df.col "longitude"))))

/-- Series.mode().iloc[0]: among the non-null string values of maximal
frequency, the smallest in sort order (pandas mode sorts its result);
Unknown when there are no such values. -/
def modeValue (cells : List Cell) : String :=
  let vals := cells.filterMap fun c => match c with | .str s => some s | _ => none
  match dedupKeepBy vals with
  | [] => "Unknown"
  | v :: vs =>
      let best := vs.foldl (fun acc w =>
        if vals.countP (fun a => a == w) > vals.countP (fun a => a == acc) ∨
           (vals.countP (fun a => a == w) = vals.countP (fun a => a == acc) ∧ w < acc)
        then w else acc) v
      best

/-- The category assignment applied to each facility violation count. -/
def categoryOf (count : ℕ) : String :=
  if count ≥ 10 then "chronic" else if count ≥ 3 then "repeat" else "occasional"

/-- The per-facility statistics of analyze_repeat_violators: group keys
are the distinct non-null facility names in ascending order (pandas
groupby sorts and drops null keys); per facility the count, first and
last date, modal violation type, first non-null coordinates, active-day
span, violations per year with the span clipped below at one year, and
the category. -/
def facilityStats (df : DataFrame) (ds : List Ymd) : List FacStat :=
  let rows := rvRows df ds
  let names := sortListBy (fun a b => a ≤ b)
    (dedupKeepBy (rows.filterMap fun r => match r.1 with | .str s => some s | _ => none))
  names.map fun name =>
    let grp := rows.filter fun r => r.1 == Cell.str name
    let dates := grp.map fun r => r.2.1
    let first := match dates with
      | [] => ⟨1, 1, 1⟩
      | d :: rest => rest.foldl (fun a b => if b.ord < a.ord then b else a) d
    let last := match dates with
      | [] => ⟨1, 1, 1⟩
      | d :: rest => rest.foldl (fun a b => if b.ord > a.ord then b else a) d
    let count := grp.length
    let activeDays := last.ord - first.ord
    { facilityName := name,
      violationCount := count,
      firstViolation := first,
      lastViolation := last,
      primaryViolationType := modeValue (grp.map fun r => r.2.2.1),
      latitude := ((grp.map fun r => r.2.2.2.1).find? fun c => c ≠ Cell.null).getD Cell.null,
      longitude := ((grp.map fun r => r.2.2.2.2).find? fun c => c ≠ Cell.null).getD Cell.null,
      activeDays := activeDays,
      violationsPerYear := round2 ((count : ℚ) / max ((activeDays : ℚ) / 365) 1),
      category := categoryOf count }

/-- AnalysisEngine.analyze_repeat_violators: the error facet for an empty
frame or a missing facility column; a KeyError for a missing
violation_date column or missing aggregation columns; else the summary. -/
def analyzeRepeatViolators (df : DataFrame) : Except String RVOut :=
  if df.isEmpty || !df.hasCol "facility_name" then
    .ok (.err "No facility data available")
  else if !df.hasCol "violation_date" then
    .error "KeyError: violation_date"
  else do
    let ds ← parseDateCol (df.col "violation_date")
    if !(df.hasCol "violation_type" && df.hasCol "latitude" && df.hasCol "longitude") then
      .error "KeyError: aggregation column does not exist"
    else
      let stats := facilityStats df ds
      pure (.res
        { totalFacilities := stats.length,
          chronicViolators := stats.countP fun s => s.category == "chronic",
          repeatViolators := stats.countP fun s => s.category == "repeat",
          occasionalViolators := stats.countP fun s => s.category == "occasional",
          topViolators := nlargestBy (fun s => (s.violationCount : ℚ)) 10 stats,
          highestFrequency := nlargestBy (fun s => s.violationsPerYear) 5 stats })

/-! ### Weather correlation analysis (analyze_weather_correlation) -/

/-- A correlation block: rounded coefficient, rounded two-sided p-value,
and the significance flag at the 0.05 level. -/
structure CorrBlock where
  coefficient : ℝ
  pValue : ℝ
  significant : Bool

/-- One threshold entry of _analyze_precipitation_thresholds. -/
structure ThrEntry where
  days : ℕ
  avgViolations : ℚ
  relativeRisk : ℚ
deriving DecidableEq, Repr

/-- The result dictionary of analyze_weather_correlation; the error field
is set (and everything else absent) exactly for the empty-input case. -/
structure WCResult where
  err : Option String
  dataPoints : Option ℕ
  precipCorrelation : Option CorrBlock
  precip3dayCorrelation : Option CorrBlock
  thresholdAnalysis : Option (List (String × ThrEntry))

/-- Round-half-to-even of a real to an integer. -/
noncomputable def rheR (x : ℝ) : Int :=
  if x - ⌊x⌋ < 1 / 2 then ⌊x⌋
  else if x - ⌊x⌋ > 1 / 2 then ⌊x⌋ + 1
  else if ⌊x⌋ % 2 == 0 then ⌊x⌋ else ⌊x⌋ + 1

/-- Python round(x, p) over the reals. -/
noncomputable def roundR (p : ℕ) (x : ℝ) : ℝ :=
  (rheR (x * 10 ^ p) : ℝ) / 10 ^ p

/-- scipy.stats.pearsonr coefficient: normalised centred dot product,
clamped into the unit interval. -/
noncomputable def pearsonR (xs ys : List ℝ) : ℝ :=
  let r0 := ssCross xs ys / Real.sqrt (ssDev xs * ssDev ys)
  if r0 > 1 then 1 else if r0 < -1 then -1 else r0

/-- scipy.stats.pearsonr two-sided p-value for a sample of size n: zero
at the degenerate extremes, else the two-sided Student t tail of
r * sqrt(df / (1 - r^2)) with df = n - 2. -/
noncomputable def pearsonP (n : ℕ) (r : ℝ) : ℝ :=
  if r = 1 ∨ r = -1 then 0
  else pTwoSided (n - 2) (r * Real.sqrt (((n : ℝ) - 2) / (1 - r ^ 2)))

/-- The correlation block for a list of valid (precipitation, violation
count) pairs. -/
noncomputable def corrBlockOf (pairs : List (ℚ × ℚ)) : CorrBlock :=
  let xs := pairs.map fun p : ℚ × ℚ => (p.1 : ℝ)
  let ys := pairs.map fun p : ℚ × ℚ => (p.2 : ℝ)
  let r := pearsonR xs ys
  let p := pearsonP pairs.length r
  { coefficient := roundR 3 r, pValue := roundR 4 p, significant := p < 0.05 }

/-- Violation counts merged onto the weather rows: per weather date, the
number of violations on that calendar day, zero when none (the left
join followed by fillna 0). -/
def mergedCounts (vds wds : List Ymd) : List ℚ :=
  wds.map fun w => ((vds.countP fun v => v == w : ℕ) : ℚ)

/-- The (precipitation, count) pairs on rows where precipitation is
non-null; the merged count itself is never null. -/
def validPrecipPairs (precip : List Cell) (counts : List ℚ) : List (ℚ × ℚ) :=
  (precip.zip counts).filterMap fun pc =>
    match pc.1 with
    | .num q => some (q, pc.2)
    | _ => none

/-- Trailing 3-day rolling sum of the precipitation column: defined from
the third row on, null when any cell of the window is null. -/
def rolling3 (precip : List Cell) : List (Option ℚ) :=
  (List.range precip.length).map fun i =>
    if i < 2 then none
    else
      match precip.get? (i - 2), precip.get? (i - 1), precip.get? i with
      | some (.num a), some (.num b), some (.num c) => some (a + b + c)
      | _, _, _ => none

/-- The valid pairs for the rolling-window correlation. -/
def validPairs3 (precip : List Cell) (counts : List ℚ) : List (ℚ × ℚ) :=
  ((rolling3 precip).zip counts).filterMap fun pc =>
    match pc.1 with
    | some q => some (q, pc.2)
    | none => none

/-- The fixed thresholds, with the dictionary keys their Python float
formatting produces. -/
def thresholdList : List (ℚ × String) :=
  [(1/10, "above_0.1_inches"), (1/2, "above_0.5_inches"),
   (1, "above_1.0_inches"), (2, "above_2.0_inches")]

/-- The violation counts of the rows whose precipitation is non-null and
at or above the threshold (a NaN comparison is false, so null rows fall
in neither group). -/
def aboveGroup (t : ℚ) (precip : List Cell) (counts : List ℚ) : List ℚ :=
  (precip.zip counts).filterMap fun pc =>
    match pc.1 with
    | .num q => if q ≥ t then some pc.2 else none
    | _ => none

/-- The violation counts of the rows with non-null precipitation below
the threshold. -/
def belowGroup (t : ℚ) (precip : List Cell) (counts : List ℚ) : List ℚ :=
  (precip.zip counts).filterMap fun pc =>
    match pc.1 with
    | .num q => if q < t then some pc.2 else none
    | _ => none

/-- _analyze_precipitation_thresholds: per threshold, partition rows by
precipitation at or above versus below; skip the threshold when either
group is empty, else report the day count, the mean violations at or
above, and the relative risk against the below-mean clipped below at
0.01 (each rounded to two decimals). -/
def analyzePrecipThresholds (precip : List Cell) (counts : List ℚ) :
    List (String × ThrEntry) :=
  thresholdList.filterMap fun t =>
    let above := aboveGroup t.1 precip counts
    let below := belowGroup t.1 precip counts
    if above.length > 0 ∧ below.length > 0 then
      let rateAbove := above.sum / above.length
      let rateBelow := below.sum / below.length
      some (t.2, { days := above.length,
                   avgViolations := round2 rateAbove,
                   relativeRisk := round2 (rateAbove / max rateBelow (1/100)) })
    else none

/-- AnalysisEngine.analyze_weather_correlation: the error facet when
either frame is empty; KeyError when the date columns are missing; else
the data-point count, the correlation blocks (each only when more than
10 valid paired rows exist, the rolling block only examined inside the
plain block's guard), and the threshold analysis, the last three only
when the weather frame has a precipitation column. -/
noncomputable def analyzeWeatherCorrelation (v w : DataFrame) :
    Except String WCResult :=
  if v.isEmpty || w.isEmpty then
    .ok { err := some "Insufficient data for correlation analysis",
          dataPoints := none, precipCorrelation := none,
          precip3dayCorrelation := none, thresholdAnalysis := none }
  else if !v.hasCol "violation_date" then
    .error "KeyError: violation_date"
  else do
    let vds ← parseDateCol (v.col "violation_date")
    if !w.hasCol "date" then
      .error "KeyError: date"
    else do
    let wds ← parseDateCol (w.col "date")
    let counts := mergedCounts vds wds
    let hasPrecip := w.hasCol "precipitation_inches"
    let precip := w.col "precipitation_inches"
    let pairs := validPrecipPairs precip counts
    let pairs3 := validPairs3 precip counts
    let corrB := if hasPrecip ∧ pairs.length > 10 then some (corrBlockOf pairs) else none
    let corr3B := if hasPrecip ∧ pairs.length > 10 ∧ pairs3.length > 10 then
        some (corrBlockOf pairs3) else none
    let thr := if hasPrecip then some (analyzePrecipThresholds precip counts) else none
    pure { err := none,
           dataPoints := some wds.length,
           precipCorrelation := corrB,
           precip3dayCorrelation := corr3B,
           thresholdAnalysis := thr }

/-! ### Concrete frames and series used by the claim witnesses and counterexamples -/

def c9df : DataFrame :=
  ⟨[("facility_name", [Cell.str "Alpha"]),
    ("violation_date", [Cell.date ⟨2020, 1, 5⟩]),
    ("violation_type", [Cell.str "SSO"]),
    ("latitude", [Cell.null]),
    ("longitude", [Cell.null])]⟩

def c9stat : FacStat :=
  { facilityName := "Alpha", violationCount := 1,
    firstViolation := ⟨2020, 1, 5⟩, lastViolation := ⟨2020, 1, 5⟩,
    primaryViolationType := "SSO", latitude := Cell.null, longitude := Cell.null,
    activeDays := 0, violationsPerYear := 1, category := "occasional" }

def c9res : RVResult :=
  { totalFacilities := 1, chronicViolators := 0, repeatViolators := 0,
    occasionalViolators := 1, topViolators := [c9stat], highestFrequency := [c9stat] }

def c4df : DataFrame :=
  ⟨[("facility_name", [Cell.str "Gamma", Cell.str "Gamma"]),
    ("violation_date", [Cell.date ⟨2019, 5, 1⟩, Cell.date ⟨2020, 5, 1⟩]),
    ("violation_type", [Cell.str "SSO", Cell.str "SSO"]),
    ("latitude", [Cell.num 30, Cell.num 30]),
    ("longitude", [Cell.num (-87), Cell.num (-87)])]⟩

def c3df : DataFrame :=
  ⟨[("violation_date", [Cell.date ⟨2020, 1, 1⟩]), ("facility_name", [Cell.str "A"])]⟩

def c10df : DataFrame :=
  ⟨[("latitude", [Cell.num 30, Cell.num 31]),
    ("longitude", [Cell.num (-87), Cell.num (-88)])]⟩

def c6v : DataFrame := ⟨[("violation_date", [Cell.date ⟨2020, 1, 3⟩])]⟩

def c6wdates : List Ymd :=
  [⟨2020, 1, 1⟩, ⟨2020, 1, 2⟩, ⟨2020, 1, 3⟩, ⟨2020, 1, 4⟩, ⟨2020, 1, 5⟩, ⟨2020, 1, 6⟩,
   ⟨2020, 1, 7⟩, ⟨2020, 1, 8⟩, ⟨2020, 1, 9⟩, ⟨2020, 1, 10⟩, ⟨2020, 1, 11⟩, ⟨2020, 1, 12⟩]

def c6w : DataFrame :=
  ⟨[("date", c6wdates.map Cell.date),
    ("precipitation_inches", List.replicate 12 (Cell.num 1))]⟩

def c5precip : List Cell := List.replicate 249 (Cell.num 2) ++ [Cell.num 2, Cell.num 0]

def c5counts : List ℚ := List.replicate 249 0 ++ [1, 0]

def c2dates : List Ymd :=
  [⟨2020, 1, 5⟩,
   ⟨2020, 2, 3⟩, ⟨2020, 2, 14⟩,
   ⟨2020, 3, 1⟩, ⟨2020, 3, 2⟩, ⟨2020, 3, 5⟩, ⟨2020, 3, 8⟩, ⟨2020, 3, 11⟩,
   ⟨2020, 3, 15⟩, ⟨2020, 3, 18⟩, ⟨2020, 3, 22⟩, ⟨2020, 3, 27⟩, ⟨2020, 3, 30⟩]

def c2flatDates : List Ymd :=
  [⟨2021, 1, 2⟩, ⟨2021, 1, 9⟩, ⟨2021, 2, 2⟩, ⟨2021, 2, 9⟩, ⟨2021, 3, 2⟩, ⟨2021, 3, 9⟩]

def c2arithDates : List Ymd :=
  [⟨2021, 1, 2⟩, ⟨2021, 2, 2⟩, ⟨2021, 2, 9⟩, ⟨2021, 3, 2⟩, ⟨2021, 3, 9⟩, ⟨2021, 3, 16⟩]

/-! ### Theorems -/

/-! Supporting lemmas about the fallback parser. -/

theorem fallbackParse_ok_elim {now : Int} {q : String} {pq : ParsedQuery}
    (h : fallbackParse now q = .ok pq) :
    pq.queryType = detectQueryType q ∧ pq.location = extractLocation q ∧
      extractTimeRange now q = .ok pq.timeRange := by
  unfold fallbackParse at h
  cases htr : extractTimeRange now q with
  | error e =>
      rw [htr] at h
      simp [Bind.bind, Except.bind] at h
  | ok tr =>
      rw [htr] at h
      simp only [Bind.bind, Except.bind, pure, Except.pure, Except.ok.injEq] at h
      subst h
      simp

theorem fallbackParse_error_elim {now : Int} {q : String} {e : String}
    (h : fallbackParse now q = .error e) :
    extractTimeRange now q = .error e := by
  unfold fallbackParse at h
  cases htr : extractTimeRange now q with
  | error f =>
      rw [htr] at h
      simp only [Bind.bind, Except.bind, Except.error.injEq] at h
      rw [h]
  | ok tr =>
      rw [htr] at h
      simp [Bind.bind, Except.bind, pure, Except.pure] at h

theorem parseRelativeYears_ok {now : Int} {n : ℕ} {tr : TimeRange}
    (h : parseRelativeYears now n = .ok tr) :
    tr.startDate.ord ≤ tr.endDate.ord := by
  unfold parseRelativeYears at h
  split at h
  · exact absurd h (by simp)
  · simp only [Except.ok.injEq] at h
    subst h
    simp only [DateVal.ord]
    omega

theorem parseRelativeYears_error {now : Int} {n : ℕ} {e : String}
    (h : parseRelativeYears now n = .error e) :
    e = "OverflowError: date value out of range" ∧ now - 365 * (n : Int) < minDateOrd := by
  unfold parseRelativeYears at h
  split at h
  · simp only [Except.error.injEq] at h
    exact ⟨h.symm, by assumption⟩
  · exact absurd h (by simp)

theorem yearRange_le (y : Int) : (Ymd.mk y 1 1).ord ≤ (Ymd.mk y 12 31).ord := by
  unfold Ymd.ord
  generalize leapsThrough (y - 1) = L
  cases h : isLeapYear y <;> norm_num [daysBeforeMonth] <;> omega

theorem extractTimeRange_ok {now : Int} {q : String} {tr : TimeRange}
    (h : extractTimeRange now q = .ok tr) :
    tr.startDate.ord ≤ tr.endDate.ord := by
  unfold extractTimeRange at h
  cases hy : findYearsNumber (lowerChars q) with
  | some n => rw [hy] at h; exact parseRelativeYears_ok h
  | none =>
      rw [hy] at h
      cases hf : findFourDigitYear q.data with
      | some y =>
          rw [hf] at h
          simp only [Except.ok.injEq] at h
          subst h
          simpa [DateVal.ord] using yearRange_le (y : Int)
      | none => rw [hf] at h; exact parseRelativeYears_ok h

theorem extractTimeRange_error {now : Int} {q : String} {e : String}
    (h : extractTimeRange now q = .error e) :
    e = "OverflowError: date value out of range" ∧
      ∃ n : ℕ, now - 365 * (n : Int) < minDateOrd ∧
        (findYearsNumber (lowerChars q) = some n ∨
          (findYearsNumber (lowerChars q) = none ∧ findFourDigitYear q.data = none ∧ n = 3)) := by
  unfold extractTimeRange at h
  cases hy : findYearsNumber (lowerChars q) with
  | some n =>
      rw [hy] at h
      obtain ⟨he, hn⟩ := parseRelativeYears_error h
      exact ⟨he, n, hn, Or.inl rfl⟩
  | none =>
      rw [hy] at h
      cases hf : findFourDigitYear q.data with
      | some y => rw [hf] at h; exact absurd h (by simp)
      | none =>
          rw [hf] at h
          obtain ⟨he, hn⟩ := parseRelativeYears_error h
          exact ⟨he, 3, hn, Or.inr ⟨rfl, rfl, rfl⟩⟩

theorem extractLocation_state_some (q : String) : ∃ s, (extractLocation q).state = some s := by
  unfold extractLocation
  exact ⟨_, rfl⟩

theorem extractLocation_county_some (q : String) : ∃ s, (extractLocation q).county = some s := by
  unfold extractLocation
  exact ⟨_, rfl⟩

/-- C1 counterexample: the claim that process_query never raises on the
fallback path is false as stated; a query asking for the last 1000000
years makes the datetime subtraction overflow, so fallback parsing
raises OverflowError instead of returning a ParsedQuery. -/
theorem C1_never_raises_counterexample :
    fallbackParse 739901 "last 1000000 years" =
      .error "OverflowError: date value out of range" := by decide

/-- C1 amended: whenever fallback parsing returns at all, the parsed
query has a non-null state and county and a time range whose start is
no later than its end; the only way it can raise is the OverflowError
path, reached exactly when an N-years phrase (or the 3-year default)
puts the start date before the minimum representable date. -/
theorem C1_fallback_invariants (now : Int) (q : String) :
    (∀ pq, fallbackParse now q = .ok pq →
      pq.location.state ≠ none ∧ pq.location.county ≠ none ∧
        pq.timeRange.startDate.ord ≤ pq.timeRange.endDate.ord) ∧
    (∀ e, fallbackParse now q = .error e →
      e = "OverflowError: date value out of range" ∧
      ∃ n : ℕ, now - 365 * (n : Int) < minDateOrd ∧
        (findYearsNumber (lowerChars q) = some n ∨
          (findYearsNumber (lowerChars q) = none ∧ findFourDigitYear q.data = none ∧ n = 3))) := by
  constructor
  · intro pq h
    obtain ⟨-, hloc, htr⟩ := fallbackParse_ok_elim h
    refine ⟨?_, ?_, extractTimeRange_ok htr⟩
    · rw [hloc]; simp [extractLocation]
    · rw [hloc]; simp [extractLocation]
  · intro e h
    exact extractTimeRange_error (fallbackParse_error_elim h)

theorem C1_fallback_invariants_witness :
    fallbackParse 739901 "Show me sewage spill patterns over the last 3 years" =
      .ok { queryType := "spill_analysis",
            location := { state := some "AL", county := some "Baldwin", city := none },
            timeRange := { startDate := .ofOrd 738806, endDate := .ofOrd 739901 },
            dataSources := ["epa"],
            visualizationType := "combined",
            filters := [],
            originalQuery := "Show me sewage spill patterns over the last 3 years" } ∧
    ((some "AL" : Option String) ≠ none ∧ (some "Baldwin" : Option String) ≠ none ∧
      (DateVal.ofOrd 738806).ord ≤ (DateVal.ofOrd 739901).ord) := by
  have h : fallbackParse 739901 "Show me sewage spill patterns over the last 3 years" =
      .ok { queryType := "spill_analysis",
            location := { state := some "AL", county := some "Baldwin", city := none },
            timeRange := { startDate := .ofOrd 738806, endDate := .ofOrd 739901 },
            dataSources := ["epa"],
            visualizationType := "combined",
            filters := [],
            originalQuery := "Show me sewage spill patterns over the last 3 years" } := by decide
  exact ⟨h, (C1_fallback_invariants 739901
    "Show me sewage spill patterns over the last 3 years").1 _ h⟩

/-- C7: the deterministic fallback classifier assigns query_type by
keyword membership in the fixed priority order spill, repeat, weather,
trend, find, general; in particular a text containing both a spill word
and a trend word is classified spill_analysis. -/
theorem C7_fallback_classifier_priority (now : Int) (q : String) (pq : ParsedQuery)
    (h : fallbackParse now q = .ok pq) :
    (anyWordIn spillWords (lowerChars q) = true → pq.queryType = "spill_analysis") ∧
    (anyWordIn spillWords (lowerChars q) = false →
      anyWordIn repeatWords (lowerChars q) = true → pq.queryType = "repeat_violators") ∧
    (anyWordIn spillWords (lowerChars q) = false →
      anyWordIn repeatWords (lowerChars q) = false →
      anyWordIn weatherWords (lowerChars q) = true → pq.queryType = "weather_correlation") ∧
    (anyWordIn spillWords (lowerChars q) = false →
      anyWordIn repeatWords (lowerChars q) = false →
      anyWordIn weatherWords (lowerChars q) = false →
      anyWordIn trendWords (lowerChars q) = true → pq.queryType = "violation_trends") ∧
    (anyWordIn spillWords (lowerChars q) = false →
      anyWordIn repeatWords (lowerChars q) = false →
      anyWordIn weatherWords (lowerChars q) = false →
      anyWordIn trendWords (lowerChars q) = false →
      anyWordIn findWords (lowerChars q) = true → pq.queryType = "facility_search") ∧
    (anyWordIn spillWords (lowerChars q) = false →
      anyWordIn repeatWords (lowerChars q) = false →
      anyWordIn weatherWords (lowerChars q) = false →
      anyWordIn trendWords (lowerChars q) = false →
      anyWordIn findWords (lowerChars q) = false → pq.queryType = "general_overview") ∧
    (anyWordIn spillWords (lowerChars q) = true →
      anyWordIn trendWords (lowerChars q) = true → pq.queryType = "spill_analysis") := by
  obtain ⟨hqt, -, -⟩ := fallbackParse_ok_elim h
  refine ⟨?_, ?_, ?_, ?_, ?_, ?_, ?_⟩ <;>
    (intros; rw [hqt]; simp [detectQueryType, *])

theorem C7_fallback_classifier_priority_witness :
    anyWordIn spillWords (lowerChars "sewage spill trends over time") = true ∧
    anyWordIn trendWords (lowerChars "sewage spill trends over time") = true ∧
    ∃ pq, fallbackParse 739901 "sewage spill trends over time" = .ok pq ∧
      pq.queryType = "spill_analysis" := by
  have h : fallbackParse 739901 "sewage spill trends over time" =
      .ok { queryType := "spill_analysis",
            location := { state := some "AL", county := some "Baldwin", city := none },
            timeRange := { startDate := .ofOrd 738806, endDate := .ofOrd 739901 },
            dataSources := ["epa"],
            visualizationType := "combined",
            filters := [],
            originalQuery := "sewage spill trends over time" } := by decide
  refine ⟨by decide, by decide, _, h, ?_⟩
  exact (C7_fallback_classifier_priority 739901 "sewage spill trends over time" _ h).2.2.2.2.2.2
    (by decide) (by decide)

/-- C8 counterexample: the text Alabama CA contains the full state name
alabama, whose table abbreviation is AL, yet the extracted state is CA:
the two-letter token regex runs unconditionally and overwrites the
full-name match, contradicting the claimed priority. -/
theorem C8_fullname_priority_counterexample :
    substrOf "alabama".data (lowerChars "Alabama CA") = true ∧
    findFullStateName (lowerChars "Alabama CA") = some "AL" ∧
    (extractLocation "Alabama CA").state = some "CA" := by decide

/-- C8 amended: state resolution matches full names against the fixed
table, but a valid two-letter uppercase token overrides any full-name
match; the full name determines the state only when no valid two-letter
token occurs, and the configured default fills in when neither does. -/
theorem C8_state_resolution_amended (q : String) :
    (∀ t, abbrevStateToken q = some t → (extractLocation q).state = some t) ∧
    (abbrevStateToken q = none →
      ∀ a, findFullStateName (lowerChars q) = some a → (extractLocation q).state = some a) ∧
    (abbrevStateToken q = none → findFullStateName (lowerChars q) = none →
      (extractLocation q).state = some DEFAULT_STATE) := by
  refine ⟨?_, ?_, ?_⟩
  · intro t ht
    simp [extractLocation, ht]
  · intro hn a ha
    simp [extractLocation, hn, ha]
  · intro hn ha
    simp [extractLocation, hn, ha]

theorem C8_state_resolution_amended_witness :
    (abbrevStateToken "spills in texas" = none ∧
      findFullStateName (lowerChars "spills in texas") = some "TX") ∧
    (extractLocation "spills in texas").state = some "TX" := by
  refine ⟨⟨by decide, by decide⟩, ?_⟩
  exact (C8_state_resolution_amended "spills in texas").2.1 (by decide) _ (by decide)

/-! Supporting lemmas for the repeat-violator claims. -/

theorem countP_partition {α : Type} (f g k : α → Bool) :
    ∀ l : List α, (∀ a ∈ l, (f a = true ∧ g a = false ∧ k a = false) ∨
        (f a = false ∧ g a = true ∧ k a = false) ∨
        (f a = false ∧ g a = false ∧ k a = true)) →
      l.countP f + l.countP g + l.countP k = l.length
  | [], _ => by simp
  | a :: l, hx => by
      have ih := countP_partition f g k l (fun b hb => hx b (List.mem_cons_of_mem a hb))
      have ha := hx a (List.mem_cons_self a l)
      simp only [List.countP_cons, List.length_cons]
      rcases ha with ⟨h1, h2, h3⟩ | ⟨h1, h2, h3⟩ | ⟨h1, h2, h3⟩ <;>
        simp [h1, h2, h3] <;> omega

theorem categoryOf_cases (c : ℕ) :
    (10 ≤ c ∧ categoryOf c = "chronic") ∨
    (3 ≤ c ∧ c < 10 ∧ categoryOf c = "repeat") ∨
    (c < 3 ∧ categoryOf c = "occasional") := by
  unfold categoryOf
  by_cases h1 : c ≥ 10
  · left; exact ⟨h1, by simp [h1]⟩
  · by_cases h2 : c ≥ 3
    · right; left; exact ⟨h2, by omega, by simp [h1, h2]⟩
    · right; right; exact ⟨by omega, by simp [h1, h2]⟩

theorem facilityStats_category {df : DataFrame} {ds : List Ymd} {s : FacStat}
    (hs : s ∈ facilityStats df ds) : s.category = categoryOf s.violationCount := by
  unfold facilityStats at hs
  simp only [List.mem_map] at hs
  obtain ⟨name, -, rfl⟩ := hs
  rfl

theorem analyzeRepeatViolators_res_elim {df : DataFrame} {r : RVResult}
    (h : analyzeRepeatViolators df = .ok (.res r)) :
    ∃ ds, parseDateCol (df.col "violation_date") = .ok ds ∧
      r = { totalFacilities := (facilityStats df ds).length,
            chronicViolators := (facilityStats df ds).countP fun s => s.category == "chronic",
            repeatViolators := (facilityStats df ds).countP fun s => s.category == "repeat",
            occasionalViolators := (facilityStats df ds).countP fun s => s.category == "occasional",
            topViolators := nlargestBy (fun s => (s.violationCount : ℚ)) 10 (facilityStats df ds),
            highestFrequency := nlargestBy (fun s => s.violationsPerYear) 5 (facilityStats df ds) } := by
  unfold analyzeRepeatViolators at h
  split at h
  · simp at h
  · split at h
    · simp at h
    · cases hp : parseDateCol (df.col "violation_date") with
      | error e => rw [hp] at h; simp [Bind.bind, Except.bind] at h
      | ok ds =>
          rw [hp] at h
          simp only [Bind.bind, Except.bind] at h
          split at h
          · simp at h
          · simp only [pure, Except.pure, Except.ok.injEq, RVOut.res.injEq] at h
            exact ⟨ds, rfl, h.symm⟩

/-- C9: facility classification partitions exhaustively and exclusively:
every violation count maps to exactly one of chronic (at least 10),
repeat (3 to 9) or occasional (below 3), every facility statistic row
carries exactly that category for its count, and the chronic, repeat and
occasional summary counts sum to the total number of facilities. -/
theorem C9_category_partition (df : DataFrame) (r : RVResult)
    (h : analyzeRepeatViolators df = .ok (.res r)) :
    r.chronicViolators + r.repeatViolators + r.occasionalViolators = r.totalFacilities ∧
    (∀ c : ℕ, (10 ≤ c → categoryOf c = "chronic") ∧
      (3 ≤ c → c < 10 → categoryOf c = "repeat") ∧
      (c < 3 → categoryOf c = "occasional")) ∧
    (∃ ds, parseDateCol (df.col "violation_date") = .ok ds ∧
      ∀ s ∈ facilityStats df ds, s.category = categoryOf s.violationCount) := by
  obtain ⟨ds, hds, rfl⟩ := analyzeRepeatViolators_res_elim h
  refine ⟨?_, ?_, ds, hds, fun s hs => facilityStats_category hs⟩
  · apply countP_partition
    intro s hs
    have hc := facilityStats_category hs
    rcases categoryOf_cases s.violationCount with ⟨-, h2⟩ | ⟨-, -, h2⟩ | ⟨-, h2⟩ <;>
      simp [hc, h2]
  · intro c
    refine ⟨fun h10 => ?_, fun h3 h10 => ?_, fun h3 => ?_⟩
    · simp [categoryOf, h10]
    · have hn : ¬ c ≥ 10 := by omega
      simp [categoryOf, hn, h3]
    · have hn : ¬ c ≥ 10 := by omega
      have hn3 : ¬ c ≥ 3 := by omega
      simp [categoryOf, hn, hn3]

/-- C4 counterexample: a non-empty violations frame with a facility-name
column but no violation-date column makes analyze_repeat_violators raise
KeyError instead of returning an error facet, so the claim that it never
raises is false as stated. -/
theorem C4_never_raises_counterexample :
    (DataFrame.mk [("facility_name", [Cell.str "Plant A"])]).isEmpty = false ∧
    analyzeRepeatViolators (DataFrame.mk [("facility_name", [Cell.str "Plant A"])]) =
      .error "KeyError: violation_date" := by decide

/-- C4 amended: analyze_repeat_violators returns the error facet exactly
for an empty frame or a missing facility-name column; when the facility
column is present but the violation-date column is missing it raises
KeyError; with all aggregation columns present and parseable dates it
returns a result without raising. -/
theorem C4_repeat_violators_errors (df : DataFrame) :
    (df.isEmpty = true ∨ df.hasCol "facility_name" = false →
      analyzeRepeatViolators df = .ok (.err "No facility data available")) ∧
    (df.isEmpty = false → df.hasCol "facility_name" = true →
      df.hasCol "violation_date" = false →
      analyzeRepeatViolators df = .error "KeyError: violation_date") ∧
    (∀ ds, df.isEmpty = false → df.hasCol "facility_name" = true →
      df.hasCol "violation_date" = true →
      parseDateCol (df.col "violation_date") = .ok ds →
      df.hasCol "violation_type" = true → df.hasCol "latitude" = true →
      df.hasCol "longitude" = true →
      ∃ r, analyzeRepeatViolators df = .ok (.res r)) := by
  refine ⟨?_, ?_, ?_⟩
  · rintro (h | h) <;> simp [analyzeRepeatViolators, h]
  · intro h1 h2 h3
    simp [analyzeRepeatViolators, h1, h2, h3]
  · intro ds h1 h2 h3 hds h4 h5 h6
    simp only [analyzeRepeatViolators, h1, h2, h3, h4, h5, h6]
    rw [hds]
    simp [Bind.bind, Except.bind, pure, Except.pure]

set_option maxHeartbeats 1000000 in
theorem c9h : analyzeRepeatViolators c9df = .ok (.res c9res) := by
  norm_num [analyzeRepeatViolators, c9df, DataFrame.isEmpty, DataFrame.nRows,
    DataFrame.hasCol, DataFrame.col, parseDateCol, facilityStats, rvRows,
    sortListBy, dedupKeepBy, dedupKeepByAux, insertBy, modeValue, categoryOf, nlargestBy,
    round2, rhe, c9res, c9stat, Bind.bind, Except.bind, pure, Except.pure,
    List.filterMap, List.mapM, List.mapM.loop, List.zip, List.zipWith,
    List.filter, List.countP, List.countP.go, List.find?, Ymd.ord, leapsThrough, isLeapYear,
    daysBeforeMonth, Int.fdiv]
  decide

theorem C9_category_partition_witness :
    analyzeRepeatViolators c9df = .ok (.res c9res) ∧
    c9res.chronicViolators + c9res.repeatViolators + c9res.occasionalViolators =
      c9res.totalFacilities :=
  ⟨c9h, (C9_category_partition c9df c9res c9h).1⟩

theorem C4_repeat_violators_errors_witness :
    ∃ r, analyzeRepeatViolators c4df = .ok (.res r) :=
  (C4_repeat_violators_errors c4df).2.2 [⟨2019, 5, 1⟩, ⟨2020, 5, 1⟩]
    (by decide) (by decide) (by decide) (by decide) (by decide) (by decide) (by decide)

/-! Supporting lemmas for the mutation and hotspot claims. -/

theorem analyzeSpillPatterns_fst (df : DataFrame) :
    (analyzeSpillPatterns df).1 = spillInputAfter df := rfl

theorem setCol_new {df : DataFrame} {n : String} {v : List Cell}
    (h : df.hasCol n = false) : (df.setCol n v).cols = df.cols ++ [(n, v)] := by
  simp [DataFrame.setCol, h]

/-- C3 counterexample: analyze_spill_patterns mutates its input: on a
frame with a violation-date column the callers table gains a new date
column, so the input is not unchanged after the call. -/
theorem C3_purity_counterexample :
    (analyzeSpillPatterns c3df).1 ≠ c3df ∧
    (analyzeSpillPatterns c3df).1 =
      DataFrame.mk [("violation_date", [Cell.date ⟨2020, 1, 1⟩]),
                    ("facility_name", [Cell.str "A"]),
                    ("date", [Cell.date ⟨2020, 1, 1⟩])] := by
  rw [analyzeSpillPatterns_fst]
  exact ⟨by decide, by decide⟩

/-- C3 amended: analyze_spill_patterns leaves its input unchanged only
when the frame is empty or has no violation-date column; otherwise it
writes the parsed dates into a date column of the callers frame, a
proper mutation whenever no date column existed before. The other two
analysis entry points copy their inputs first and are modelled as pure
functions of their arguments. -/
theorem C3_mutation_amended (df : DataFrame) :
    (df.hasCol "violation_date" = false → (analyzeSpillPatterns df).1 = df) ∧
    (df.isEmpty = true → (analyzeSpillPatterns df).1 = df) ∧
    (∀ ds, df.isEmpty = false → df.hasCol "violation_date" = true →
      parseDateCol (df.col "violation_date") = .ok ds →
      (analyzeSpillPatterns df).1 = df.setCol "date" (ds.map Cell.date)) ∧
    (∀ ds, df.isEmpty = false → df.hasCol "violation_date" = true →
      df.hasCol "date" = false →
      parseDateCol (df.col "violation_date") = .ok ds →
      (analyzeSpillPatterns df).1 ≠ df) := by
  rw [analyzeSpillPatterns_fst]
  refine ⟨?_, ?_, ?_, ?_⟩
  · intro h
    cases hE : df.isEmpty <;> simp [spillInputAfter, hE, h]
  · intro hE
    simp [spillInputAfter, hE]
  · intro ds hE hvd hds
    simp [spillInputAfter, hE, hvd, hds]
  · intro ds hE hvd hdate hds heq
    rw [(by simp [spillInputAfter, hE, hvd, hds] :
      spillInputAfter df = df.setCol "date" (ds.map Cell.date))] at heq
    have hlen := congrArg (fun d => d.cols.length) heq
    simp only [setCol_new hdate] at hlen
    simp at hlen

theorem C3_mutation_amended_witness :
    (analyzeSpillPatterns c3df).1 = c3df.setCol "date" ([Ymd.mk 2020 1 1].map Cell.date) :=
  (C3_mutation_amended c3df).2.2.1 [⟨2020, 1, 1⟩] (by decide) (by decide) (by decide)

theorem getDateRange_vd_parse {df : DataFrame} {o : Option (Ymd × Ymd)}
    (hvd : df.hasCol "violation_date" = true) (h : getDateRange df = .ok o) :
    ∃ ds, parseDateCol (df.col "violation_date") = .ok ds := by
  unfold getDateRange at h
  rw [hvd] at h
  simp only [Bool.true_or, if_pos, if_true] at h
  cases hp : parseDateCol (df.col "violation_date") with
  | error e => rw [hp] at h; simp [Bind.bind, Except.bind] at h
  | ok ds => exact ⟨ds, rfl⟩

theorem spatialFacet_keyerror {df : DataFrame}
    (hfac : df.hasCol "facility_name" = false)
    (hval : 2 ≤ (validCoordRows df).length) :
    spatialFacet df = .error "KeyError: column facility_name does not exist" := by
  unfold spatialFacet
  rw [if_neg (by omega)]
  have hne : (validCoordRows df).isEmpty = false := by
    cases hv : validCoordRows df with
    | nil => rw [hv] at hval; simp at hval
    | cons a l => simp
  simp only [Bind.bind, Except.bind]
  unfold identifyHotspots
  rw [hne, hfac]
  simp

/-- C10: whenever the violations frame has latitude and longitude
columns with at least 2 rows of non-null coordinates but no
facility-name column, hotspot identification aggregates over the absent
facility-name column and the call raises KeyError. -/
theorem C10_hotspot_keyerror (df : DataFrame) (o : Option (Ymd × Ymd))
    (hE : df.isEmpty = false)
    (hdr : getDateRange df = .ok o)
    (hlat : df.hasCol "latitude" = true) (hlon : df.hasCol "longitude" = true)
    (hfac : df.hasCol "facility_name" = false)
    (hval : 2 ≤ (validCoordRows df).length) :
    analyzeSpillPatternsRes df = .error "KeyError: column facility_name does not exist" := by
  unfold analyzeSpillPatternsRes
  rw [hE]
  simp only [Bind.bind, Except.bind, hdr, Bool.false_eq_true, if_false]
  cases hvd : df.hasCol "violation_date" with
  | false =>
      simp only [hvd, Bool.false_eq_true, if_false, pure, Except.pure]
      rw [hlat, hlon]
      simp only [Bool.and_self, if_true]
      rw [spatialFacet_keyerror hfac hval]
  | true =>
      obtain ⟨ds, hds⟩ := getDateRange_vd_parse hvd hdr
      simp only [hvd, if_true, hds, pure, Except.pure]
      rw [hlat, hlon]
      simp only [Bool.and_self, if_true]
      rw [spatialFacet_keyerror hfac hval]

theorem C10_hotspot_keyerror_witness :
    (c10df.isEmpty = false ∧ c10df.hasCol "facility_name" = false ∧
      2 ≤ (validCoordRows c10df).length) ∧
    analyzeSpillPatternsRes c10df = .error "KeyError: column facility_name does not exist" := by
  refine ⟨⟨by decide, by decide, by decide⟩, ?_⟩
  exact C10_hotspot_keyerror c10df none (by decide) (by decide) (by decide) (by decide)
    (by decide) (by decide)

/-! Supporting lemmas for the weather-correlation claims. -/

theorem col_of_not_hasCol {df : DataFrame} {n : String}
    (h : df.hasCol n = false) : df.col n = [] := by
  unfold DataFrame.col
  cases hf : df.cols.find? (fun c => c.1 == n) with
  | none => simp
  | some c =>
      exfalso
      have hc := List.find?_some hf
      have hmem := List.mem_of_find?_eq_some hf
      unfold DataFrame.hasCol at h
      rw [List.any_eq_false] at h
      exact absurd hc (by simpa using h c hmem)

/-- C6: analyze_weather_correlation returns a result holding only an
error facet whenever either input frame is empty; otherwise the
precipitation-correlation block is present if and only if more than 10
(that is, at least 11) merged rows have non-null precipitation paired
with the never-null violation count. -/
theorem C6_weather_correlation_presence (v w : DataFrame) :
    (v.isEmpty = true ∨ w.isEmpty = true →
      analyzeWeatherCorrelation v w =
        .ok { err := some "Insufficient data for correlation analysis",
              dataPoints := none, precipCorrelation := none,
              precip3dayCorrelation := none, thresholdAnalysis := none }) ∧
    (∀ vds wds, v.isEmpty = false → w.isEmpty = false →
      v.hasCol "violation_date" = true →
      parseDateCol (v.col "violation_date") = .ok vds →
      w.hasCol "date" = true →
      parseDateCol (w.col "date") = .ok wds →
      ∃ r, analyzeWeatherCorrelation v w = .ok r ∧ r.err = none ∧
        (r.precipCorrelation.isSome = true ↔
          10 < (validPrecipPairs (w.col "precipitation_inches") (mergedCounts vds wds)).length)) := by
  constructor
  · rintro (h | h) <;> simp [analyzeWeatherCorrelation, h]
  · intro vds wds hvE hwE hvd hvds hwd hwds
    unfold analyzeWeatherCorrelation
    rw [hvE, hwE]
    simp only [Bool.or_self, Bool.false_eq_true, if_false, hvd, Bool.not_true, Bind.bind,
      Except.bind, hvds, hwd, hwds, pure, Except.pure]
    refine ⟨_, rfl, rfl, ?_⟩
    by_cases hc : w.hasCol "precipitation_inches" = true ∧
        10 < (validPrecipPairs (w.col "precipitation_inches") (mergedCounts vds wds)).length
    · rw [if_pos hc]
      simp only [Option.isSome_some, true_iff]
      exact hc.2
    · rw [if_neg hc]
      simp only [Option.isSome_none, Bool.false_eq_true, false_iff]
      intro hlen
      apply hc
      refine ⟨?_, hlen⟩
      by_contra hp
      have hp0 : w.hasCol "precipitation_inches" = false := by
        cases h0 : w.hasCol "precipitation_inches"
        · rfl
        · exact absurd h0 hp
      rw [col_of_not_hasCol hp0] at hlen
      simp [validPrecipPairs] at hlen

theorem C6_weather_correlation_presence_witness :
    (c6v.isEmpty = false ∧ c6w.isEmpty = false ∧
      (validPrecipPairs (c6w.col "precipitation_inches")
        (mergedCounts [⟨2020, 1, 3⟩] c6wdates)).length = 12) ∧
    ∃ r, analyzeWeatherCorrelation c6v c6w = .ok r ∧ r.err = none ∧
      r.precipCorrelation.isSome = true := by
  refine ⟨⟨by decide, by decide, by decide⟩, ?_⟩
  obtain ⟨r, hr, herr, hiff⟩ := (C6_weather_correlation_presence c6v c6w).2
    [⟨2020, 1, 3⟩] c6wdates (by decide) (by decide) (by decide) (by decide)
    (by decide) (by decide)
  exact ⟨r, hr, herr, hiff.mpr (by decide)⟩

/-! Supporting lemmas for the precipitation-threshold claims. -/

theorem rhe_ge (q : ℚ) : q - 1/2 ≤ (rhe q : ℚ) := by
  have h1 := Int.floor_le q
  have h2 := Int.lt_floor_add_one q
  unfold rhe
  split
  · linarith
  · split
    · push_cast
      linarith
    · split
      · linarith
      · push_cast
        linarith

theorem round2_ge (q : ℚ) : q - 1/200 ≤ round2 q := by
  unfold round2
  have := rhe_ge (q * 100)
  linarith

theorem thresholdList_key_inj :
    ∀ t ∈ thresholdList, ∀ s ∈ thresholdList, t.2 = s.2 → t = s := by
  intro t ht s hs
  fin_cases ht <;> fin_cases hs <;> simp_all

theorem mem_analyzePrecipThresholds {precip : List Cell} {counts : List ℚ}
    {t : ℚ × String} (ht : t ∈ thresholdList)
    (ha : aboveGroup t.1 precip counts ≠ [])
    (hb : belowGroup t.1 precip counts ≠ []) :
    (t.2, ({ days := (aboveGroup t.1 precip counts).length,
             avgViolations := round2 ((aboveGroup t.1 precip counts).sum /
               (aboveGroup t.1 precip counts).length),
             relativeRisk := round2 (((aboveGroup t.1 precip counts).sum /
                 (aboveGroup t.1 precip counts).length) /
               max ((belowGroup t.1 precip counts).sum /
                 (belowGroup t.1 precip counts).length) (1/100)) } : ThrEntry)) ∈
      analyzePrecipThresholds precip counts := by
  unfold analyzePrecipThresholds
  rw [List.mem_filterMap]
  refine ⟨t, ht, ?_⟩
  rw [if_pos ⟨List.length_pos.mpr ha, List.length_pos.mpr hb⟩]

theorem mem_analyzePrecipThresholds_elim {precip : List Cell} {counts : List ℚ}
    {k : String} {e : ThrEntry}
    (h : (k, e) ∈ analyzePrecipThresholds precip counts) :
    ∃ t ∈ thresholdList, k = t.2 ∧
      aboveGroup t.1 precip counts ≠ [] ∧ belowGroup t.1 precip counts ≠ [] ∧
      e = { days := (aboveGroup t.1 precip counts).length,
            avgViolations := round2 ((aboveGroup t.1 precip counts).sum /
              (aboveGroup t.1 precip counts).length),
            relativeRisk := round2 (((aboveGroup t.1 precip counts).sum /
                (aboveGroup t.1 precip counts).length) /
              max ((belowGroup t.1 precip counts).sum /
                (belowGroup t.1 precip counts).length) (1/100)) } := by
  unfold analyzePrecipThresholds at h
  rw [List.mem_filterMap] at h
  obtain ⟨t, ht, hf⟩ := h
  refine ⟨t, ht, ?_⟩
  by_cases hc : (aboveGroup t.1 precip counts).length > 0 ∧
      (belowGroup t.1 precip counts).length > 0
  · rw [if_pos hc] at hf
    simp only [Option.some.injEq, Prod.mk.injEq] at hf
    exact ⟨hf.1.symm, by simpa using List.length_pos.mp hc.1,
      by simpa using List.length_pos.mp hc.2, hf.2.symm⟩
  · rw [if_neg hc] at hf
    exact absurd hf (by simp)

theorem mem_thresholdList_one : ((1 : ℚ), "above_1.0_inches") ∈ thresholdList := by
  simp [thresholdList]

/-- C5 amended: a threshold entry is omitted exactly when the at-or-above
or below group is empty; a present entry carries the day count, the
rounded mean violations above, and the relative risk equal to the above
mean divided by the below mean clipped at 0.01, rounded to 2 decimals;
when every violation falls on days at or above 1.0 inch, the relative
risk exceeds 1.0 provided the above-group mean is at least 0.0101, but
not in general (see the counterexample). -/
theorem C5_threshold_analysis_amended (precip : List Cell) (counts : List ℚ) :
    (∀ t ∈ thresholdList,
      (aboveGroup t.1 precip counts = [] ∨ belowGroup t.1 precip counts = []) →
      ∀ e : ThrEntry, (t.2, e) ∉ analyzePrecipThresholds precip counts) ∧
    (∀ t ∈ thresholdList,
      aboveGroup t.1 precip counts ≠ [] → belowGroup t.1 precip counts ≠ [] →
      ∃ e : ThrEntry, (t.2, e) ∈ analyzePrecipThresholds precip counts) ∧
    (∀ t ∈ thresholdList, ∀ e : ThrEntry,
      (t.2, e) ∈ analyzePrecipThresholds precip counts →
      e.days = (aboveGroup t.1 precip counts).length ∧
      e.avgViolations = round2 ((aboveGroup t.1 precip counts).sum /
        (aboveGroup t.1 precip counts).length) ∧
      e.relativeRisk = round2 (((aboveGroup t.1 precip counts).sum /
          (aboveGroup t.1 precip counts).length) /
        max ((belowGroup t.1 precip counts).sum /
          (belowGroup t.1 precip counts).length) (1/100))) ∧
    ((∀ q ∈ belowGroup 1 precip counts, q = 0) →
      101/10000 ≤ (aboveGroup 1 precip counts).sum / (aboveGroup 1 precip counts).length →
      ∀ e : ThrEntry, ("above_1.0_inches", e) ∈ analyzePrecipThresholds precip counts →
        e.relativeRisk > 1) := by
  have keyelim : ∀ (t : ℚ × String), t ∈ thresholdList → ∀ (e : ThrEntry),
      (t.2, e) ∈ analyzePrecipThresholds precip counts →
      aboveGroup t.1 precip counts ≠ [] ∧ belowGroup t.1 precip counts ≠ [] ∧
      e = { days := (aboveGroup t.1 precip counts).length,
            avgViolations := round2 ((aboveGroup t.1 precip counts).sum /
              (aboveGroup t.1 precip counts).length),
            relativeRisk := round2 (((aboveGroup t.1 precip counts).sum /
                (aboveGroup t.1 precip counts).length) /
              max ((belowGroup t.1 precip counts).sum /
                (belowGroup t.1 precip counts).length) (1/100)) } := by
    intro t ht e hmem
    obtain ⟨s, hs, hk, ha, hb, he⟩ := mem_analyzePrecipThresholds_elim hmem
    have hst : s = t := thresholdList_key_inj s hs t ht hk.symm
    subst hst
    exact ⟨ha, hb, he⟩
  refine ⟨?_, ?_, ?_, ?_⟩
  · intro t ht hempty e hmem
    obtain ⟨ha, hb, -⟩ := keyelim t ht e hmem
    rcases hempty with h | h
    · exact ha h
    · exact hb h
  · intro t ht ha hb
    exact ⟨_, mem_analyzePrecipThresholds ht ha hb⟩
  · intro t ht e hmem
    obtain ⟨-, -, he⟩ := keyelim t ht e hmem
    rw [he]
    exact ⟨rfl, rfl, rfl⟩
  · intro hz hm e hmem
    obtain ⟨-, -, he⟩ := keyelim ((1 : ℚ), "above_1.0_inches") mem_thresholdList_one e hmem
    have hbz : (belowGroup 1 precip counts).sum = 0 := List.sum_eq_zero hz
    have hmax : max ((belowGroup 1 precip counts).sum /
        (belowGroup 1 precip counts).length) (1/100) = 1/100 := by
      rw [hbz]
      norm_num
    rw [he]
    simp only [hmax]
    have hdiv : ((aboveGroup 1 precip counts).sum / (aboveGroup 1 precip counts).length) /
        (1/100 : ℚ) =
        ((aboveGroup 1 precip counts).sum / (aboveGroup 1 precip counts).length) * 100 := by
      field_simp
    rw [hdiv]
    have := round2_ge (((aboveGroup 1 precip counts).sum /
      (aboveGroup 1 precip counts).length) * 100)
    have hge : (101 : ℚ)/10000 * 100 ≤
        ((aboveGroup 1 precip counts).sum / (aboveGroup 1 precip counts).length) * 100 := by
      nlinarith
    simp only [ThrEntry.relativeRisk] at *
    linarith

set_option maxRecDepth 10000 in
theorem c5above : aboveGroup 1 c5precip c5counts = List.replicate 249 0 ++ [1] := by rfl

set_option maxRecDepth 10000 in
theorem c5below : belowGroup 1 c5precip c5counts = [0] := by rfl

theorem c5above_len : (aboveGroup 1 c5precip c5counts).length = 250 := by
  rw [c5above, List.length_append, List.length_replicate]
  simp

theorem c5above_sum : (aboveGroup 1 c5precip c5counts).sum = 1 := by
  rw [c5above, List.sum_append, List.sum_replicate]
  norm_num

/-- C5 counterexample: with 250 days at 2.0 inches carrying a single
violation and 5 dry days carrying none, every violation occurs on a day
with precipitation at or above 1.0 inch, yet the above-1.0 relative risk
is 0.4, not above 1.0: the claim is false as stated. -/
theorem C5_relative_risk_counterexample :
    (∀ q ∈ belowGroup 1 c5precip c5counts, q = 0) ∧
    ("above_1.0_inches",
      ({ days := 250, avgViolations := 0, relativeRisk := 2/5 } : ThrEntry)) ∈
      analyzePrecipThresholds c5precip c5counts ∧
    ¬ ((2 : ℚ)/5 > 1) := by
  refine ⟨?_, ?_, by norm_num⟩
  · rw [c5below]
    intro q hq
    simpa using hq
  · have hane : aboveGroup 1 c5precip c5counts ≠ [] := by
      intro h
      have := c5above_len
      rw [h] at this
      simp at this
    have hbne : belowGroup 1 c5precip c5counts ≠ [] := by
      rw [c5below]
      simp
    have hmem := mem_analyzePrecipThresholds mem_thresholdList_one hane hbne
    have hbsum : (belowGroup 1 c5precip c5counts).sum = 0 := by rw [c5below]; simp
    have hblen : (belowGroup 1 c5precip c5counts).length = 1 := by rw [c5below]; simp
    rw [c5above_len, c5above_sum, hbsum, hblen] at hmem
    have havg : round2 ((1 : ℚ) / (250 : ℕ)) = 0 := by norm_num [round2, rhe]
    have hrel : round2 (((1 : ℚ) / (250 : ℕ)) / max ((0 : ℚ) / (1 : ℕ)) (1/100)) = 2/5 := by
      norm_num [round2, rhe]
    rw [havg, hrel] at hmem
    exact hmem

theorem C5_threshold_analysis_amended_witness :
    ∃ e : ThrEntry,
      ("above_1.0_inches", e) ∈ analyzePrecipThresholds [Cell.num 2, Cell.num 0] [3, 0] ∧
      e.relativeRisk > 1 := by
  have ha : aboveGroup 1 [Cell.num 2, Cell.num 0] [3, 0] = [3] := by rfl
  have hb : belowGroup 1 [Cell.num 2, Cell.num 0] [3, 0] = [0] := by rfl
  obtain ⟨e, he⟩ := (C5_threshold_analysis_amended [Cell.num 2, Cell.num 0] [3, 0]).2.1
    ((1 : ℚ), "above_1.0_inches") mem_thresholdList_one (by rw [ha]; simp) (by rw [hb]; simp)
  refine ⟨e, he, ?_⟩
  refine (C5_threshold_analysis_amended [Cell.num 2, Cell.num 0] [3, 0]).2.2.2 ?_ ?_ e he
  · rw [hb]
    intro q hq
    simpa using hq
  · rw [ha]
    norm_num

theorem tDensity_one (t : ℝ) : tDensity 1 t = Real.pi⁻¹ * (1 + t ^ 2)⁻¹ := by
  unfold tDensity
  push_cast
  norm_num
  rw [Real.Gamma_one_half_eq, ← mul_inv, Real.mul_self_sqrt Real.pi_pos.le]
  norm_num
  left
  exact Real.rpow_neg_one _
theorem tSF_one (x : ℝ) : tSF 1 x = 1/2 - Real.arctan x / Real.pi := by
  unfold tSF
  have hcong : (∫ t in (0:ℝ)..x, tDensity 1 t) =
      ∫ t in (0:ℝ)..x, Real.pi⁻¹ * (1 + t ^ 2)⁻¹ := by
    apply intervalIntegral.integral_congr
    intro t _
    exact tDensity_one t
  rw [hcong, intervalIntegral.integral_const_mul]
  have : (∫ t in (0:ℝ)..x, (1 + t ^ 2)⁻¹) = Real.arctan x - Real.arctan 0 := by
    simpa using @integral_inv_one_add_sq 0 x

  rw [this, Real.arctan_zero, sub_zero]
  ring

theorem tSF_zero (nu : ℕ) : tSF nu 0 = 1/2 := by
  unfold tSF
  rw [intervalIntegral.integral_same, sub_zero]

theorem pTwoSided_zero (nu : ℕ) : pTwoSided nu 0 = 1 := by
  unfold pTwoSided
  rw [abs_zero, tSF_zero]
  norm_num

theorem pi40_pos : 0 < Real.pi / 40 := by positivity

theorem pi40_lt : Real.pi / 40 < 0.0785399 := by
  have := Real.pi_lt_d6
  linarith

theorem pi40_gt : 0.0785398 < Real.pi / 40 := by
  have := Real.pi_gt_d6
  linarith

theorem pi40_lt_half : Real.pi / 40 < Real.pi / 2 := by
  have := Real.pi_pos
  linarith

theorem tan40_pos : 0 < Real.tan (Real.pi / 40) :=
  Real.tan_pos_of_pos_of_lt_pi_div_two pi40_pos pi40_lt_half

theorem sin40_lt : Real.sin (Real.pi / 40) < 0.0785399 :=
  lt_trans (Real.sin_lt pi40_pos) pi40_lt

theorem cos40_gt : (0.9969 : ℝ) < Real.cos (Real.pi / 40) := by
  have hb := @Real.one_sub_sq_div_two_le_cos (Real.pi / 40)
  have h1 := pi40_lt
  have h0 := pi40_pos
  nlinarith

theorem tan40_lt : Real.tan (Real.pi / 40) < 1/10 := by
  rw [Real.tan_eq_sin_div_cos]
  have hc := cos40_gt
  have hs := sin40_lt
  rw [div_lt_iff (by linarith)]
  nlinarith

theorem sin40_gt : (0.0784 : ℝ) < Real.sin (Real.pi / 40) := by
  have hb := Real.sin_gt_sub_cube pi40_pos (le_trans pi40_lt.le (by norm_num))
  have h1 := pi40_lt
  have h0 := pi40_gt
  have hcube : (Real.pi / 40) ^ 3 < 0.000485 := by
    calc (Real.pi / 40) ^ 3 < (0.0785399 : ℝ) ^ 3 :=
          pow_lt_pow_left pi40_lt pi40_pos.le (by norm_num)
      _ < 0.000485 := by norm_num
  nlinarith

theorem tan40_gt : 1/13 < Real.tan (Real.pi / 40) := by
  rw [Real.tan_eq_sin_div_cos]
  have hc1 : Real.cos (Real.pi / 40) ≤ 1 := Real.cos_le_one _
  have hc0 : (0 : ℝ) < Real.cos (Real.pi / 40) := by
    have := cos40_gt
    linarith
  have hs := sin40_gt
  rw [lt_div_iff hc0]
  nlinarith

theorem tan1940_eq : Real.tan (19 * Real.pi / 40) = (Real.tan (Real.pi / 40))⁻¹ := by
  rw [show (19 * Real.pi / 40 : ℝ) = Real.pi / 2 - Real.pi / 40 by ring]
  exact Real.tan_pi_div_two_sub _

theorem tan1940_gt : (10 : ℝ) < Real.tan (19 * Real.pi / 40) := by
  rw [tan1940_eq]
  have h := inv_lt_inv_of_lt tan40_pos tan40_lt
  simpa using h

theorem tan1940_lt : Real.tan (19 * Real.pi / 40) < 13 := by
  rw [tan1940_eq]
  have h := inv_lt_inv_of_lt (by norm_num : (0:ℝ) < 1/13) tan40_gt
  simpa using h

theorem nineteen40_lt_half : 19 * Real.pi / 40 < Real.pi / 2 := by
  have := Real.pi_pos
  linarith

theorem nineteen40_gt_neg : -(Real.pi / 2) < 19 * Real.pi / 40 := by
  have := Real.pi_pos
  linarith

theorem pOne_gt_of_le {t : ℝ} (h0 : 0 ≤ t) (h5 : t ≤ 5) : pTwoSided 1 t > 0.05 := by
  unfold pTwoSided
  rw [abs_of_nonneg h0, tSF_one]
  have harc : Real.arctan t < 19 * Real.pi / 40 := by
    have ht : t < Real.tan (19 * Real.pi / 40) := by
      have := tan1940_gt
      linarith
    calc Real.arctan t < Real.arctan (Real.tan (19 * Real.pi / 40)) :=
          Real.arctan_strictMono ht
      _ = 19 * Real.pi / 40 := Real.arctan_tan nineteen40_gt_neg nineteen40_lt_half
  have hpi := Real.pi_pos
  have h2 : Real.arctan t / Real.pi < 19/40 := by
    rw [div_lt_iff hpi]
    linarith
  norm_num
  linarith

theorem pOne_le_of_ge {t : ℝ} (h13 : 13 ≤ t) : pTwoSided 1 t ≤ 0.05 := by
  unfold pTwoSided
  rw [abs_of_nonneg (by linarith : (0:ℝ) ≤ t), tSF_one]
  have harc : 19 * Real.pi / 40 ≤ Real.arctan t := by
    have ht : Real.tan (19 * Real.pi / 40) ≤ t := by
      have := tan1940_lt
      linarith
    calc (19 : ℝ) * Real.pi / 40
        = Real.arctan (Real.tan (19 * Real.pi / 40)) :=
          (Real.arctan_tan nineteen40_gt_neg nineteen40_lt_half).symm
      _ ≤ Real.arctan t := Real.arctan_strictMono.monotone ht
  have hpi := Real.pi_pos
  have h2 : (19 : ℝ)/40 ≤ Real.arctan t / Real.pi := by
    rw [le_div_iff hpi]
    linarith
  norm_num
  linarith

theorem idxList_length (n : ℕ) : (idxList n).length = n := by
  unfold idxList
  rw [List.length_map, List.length_range]

theorem ssDev_replicate (n : ℕ) (c : ℝ) : ssDev (List.replicate n c) = 0 := by
  cases n with
  | zero => simp [ssDev, listMean]
  | succ m =>
      have hmean : listMean (List.replicate (m + 1) c) = c := by
        unfold listMean
        rw [List.sum_replicate, List.length_replicate]
        push_cast [nsmul_eq_mul]
        field_simp
      unfold ssDev
      rw [hmean, List.map_replicate]
      simp

theorem lrT_of_degenerate {xs ys : List ℝ} (h : ssDev xs = 0 ∨ ssDev ys = 0) :
    lrT xs ys = 0 := by
  unfold lrT lrR
  rw [if_pos h]
  simp

theorem trend_insufficient {counts : List ℕ} (h : counts.length < 3) :
    trendOfCounts counts = "insufficient_data" := by
  unfold trendOfCounts
  rw [if_pos h]

theorem trend_flat {n c : ℕ} (h : 3 ≤ n) :
    trendOfCounts (List.replicate n c) = "stable" := by
  unfold trendOfCounts
  rw [List.length_replicate, if_neg (by omega)]
  have hy : (List.replicate n c).map (fun k : ℕ => (k : ℝ)) = List.replicate n (c : ℝ) :=
    List.map_replicate
  have hp : lrP (idxList (List.replicate n c).length)
      ((List.replicate n c).map fun k : ℕ => (k : ℝ)) = 1 := by
    unfold lrP
    rw [hy, lrT_of_degenerate (Or.inr (ssDev_replicate n (c : ℝ)))]
    exact pTwoSided_zero _
  rw [List.length_replicate] at hp
  rw [hp]
  norm_num

theorem range3 : idxList 3 = [0, 1, 2] := by
  unfold idxList
  norm_num [List.range_succ]

theorem epsFact : (13 : ℝ) ≤ Real.sqrt (1 / ((1e-20 : ℝ) * (2 + 1e-20))) := by
  rw [show (13 : ℝ) = Real.sqrt 169 by
    rw [show (169 : ℝ) = 13 ^ 2 by norm_num]
    exact (Real.sqrt_sq (by norm_num)).symm]
  apply Real.sqrt_le_sqrt
  rw [le_div_iff (by norm_num)]
  norm_num

theorem trend_arith {a d : ℕ} (hd : 1 ≤ d) :
    trendOfCounts [a, a + d, a + 2 * d] = "increasing" := by
  have hD : (1 : ℝ) ≤ (d : ℝ) := by exact_mod_cast hd
  have hD0 : (0 : ℝ) < (d : ℝ) := by linarith
  have hmap : ([a, a + d, a + 2 * d].map fun k : ℕ => (k : ℝ)) =
      [(a : ℝ), (a : ℝ) + (d : ℝ), (a : ℝ) + 2 * (d : ℝ)] := by
    simp only [List.map_cons, List.map_nil]
    push_cast
    rfl
  have hsx : ssDev [(0 : ℝ), 1, 2] = 2 := by norm_num [ssDev, listMean]
  have hsy : ssDev [(a : ℝ), (a : ℝ) + (d : ℝ), (a : ℝ) + 2 * (d : ℝ)] = 2 * (d : ℝ) ^ 2 := by
    simp [ssDev, listMean]
    ring
  have hcr : ssCross [(0 : ℝ), 1, 2] [(a : ℝ), (a : ℝ) + (d : ℝ), (a : ℝ) + 2 * (d : ℝ)] =
      2 * (d : ℝ) := by
    simp [ssCross, listMean]
    ring
  have hsqrt : Real.sqrt (2 * (2 * (d : ℝ) ^ 2)) = 2 * (d : ℝ) := by
    rw [show (2 : ℝ) * (2 * (d : ℝ) ^ 2) = (2 * (d : ℝ)) ^ 2 by ring]
    exact Real.sqrt_sq (by positivity)
  have hr : lrR [(0 : ℝ), 1, 2] [(a : ℝ), (a : ℝ) + (d : ℝ), (a : ℝ) + 2 * (d : ℝ)] = 1 := by
    unfold lrR
    rw [if_neg (by
      push_neg
      refine ⟨by rw [hsx]; norm_num, by rw [hsy]; positivity⟩)]
    rw [hsx, hsy, hcr, hsqrt]
    rw [div_self (by positivity)]
    norm_num
  have ht : lrT [(0 : ℝ), 1, 2] [(a : ℝ), (a : ℝ) + (d : ℝ), (a : ℝ) + 2 * (d : ℝ)] =
      Real.sqrt ((1 : ℝ) / ((1e-20 : ℝ) * (2 + 1e-20))) := by
    unfold lrT
    rw [hr]
    norm_num
  have hp : lrP [(0 : ℝ), 1, 2] [(a : ℝ), (a : ℝ) + (d : ℝ), (a : ℝ) + 2 * (d : ℝ)] ≤ 0.05 := by
    unfold lrP
    rw [ht]
    exact pOne_le_of_ge (by simpa using epsFact)
  have hslope : lrSlope [(0 : ℝ), 1, 2] [(a : ℝ), (a : ℝ) + (d : ℝ), (a : ℝ) + 2 * (d : ℝ)] =
      (d : ℝ) := by
    unfold lrSlope
    rw [hcr, hsx]
    ring
  unfold trendOfCounts
  simp only [List.length_cons, List.length_nil]
  rw [if_neg (by omega)]
  simp only [show (0 + 1 + 1 + 1 : ℕ) = 3 from rfl, range3, hmap]
  rw [if_neg (not_lt.mpr hp), if_pos (by rw [hslope]; exact hD0)]

theorem trend_cex : trendOfCounts [1, 2, 10] = "stable" := by
  have hmap : ([1, 2, 10].map fun k : ℕ => (k : ℝ)) = [(1 : ℝ), 2, 10] := by
    simp only [List.map_cons, List.map_nil]
    norm_num
  have hsx : ssDev [(0 : ℝ), 1, 2] = 2 := by norm_num [ssDev, listMean]
  have hsy : ssDev [(1 : ℝ), 2, 10] = 438 / 9 := by norm_num [ssDev, listMean]
  have hcr : ssCross [(0 : ℝ), 1, 2] [(1 : ℝ), 2, 10] = 9 := by
    norm_num [ssCross, listMean]
  have hw : (0 : ℝ) < 876 / 9 := by norm_num
  set S := Real.sqrt (876 / 9) with hSdef
  have hSpos : 0 < S := Real.sqrt_pos.mpr hw
  have hS2 : S ^ 2 = 876 / 9 := Real.sq_sqrt hw.le
  have h9le : (9 : ℝ) ≤ S := by
    rw [hSdef]
    nth_rewrite 1 [show (9 : ℝ) = Real.sqrt 81 by
      rw [show (81 : ℝ) = 9 ^ 2 by norm_num]
      exact (Real.sqrt_sq (by norm_num)).symm]
    exact Real.sqrt_le_sqrt (by norm_num)
  set R := 9 / S with hRdef
  have hR0 : 0 < R := by positivity
  have hR1 : R ≤ 1 := (div_le_one hSpos).mpr h9le
  have hR2 : R ^ 2 = 729 / 876 := by
    rw [hRdef, div_pow, hS2]
    norm_num
  have hr : lrR [(0 : ℝ), 1, 2] [(1 : ℝ), 2, 10] = R := by
    unfold lrR
    rw [if_neg (by
      push_neg
      refine ⟨by rw [hsx]; norm_num, by rw [hsy]; norm_num⟩)]
    rw [hsx, hsy, hcr]
    rw [show (2 : ℝ) * (438 / 9) = 876 / 9 by norm_num, ← hSdef, ← hRdef]
    rw [if_neg (by push_neg; linarith), if_neg (by push_neg; linarith)]
  have hR2lt : R ^ 2 < 1 := by
    rw [hR2]
    norm_num
  have hD : (0 : ℝ) < (1 - R + 1e-20) * (1 + R + 1e-20) := by nlinarith
  have hDge : 1 - R ^ 2 ≤ (1 - R + 1e-20) * (1 + R + 1e-20) := by nlinarith
  have ht : lrT [(0 : ℝ), 1, 2] [(1 : ℝ), 2, 10] =
      R * Real.sqrt (1 / ((1 - R + 1e-20) * (1 + R + 1e-20))) := by
    unfold lrT
    rw [hr]
    norm_num
  have ht0 : 0 ≤ R * Real.sqrt (1 / ((1 - R + 1e-20) * (1 + R + 1e-20))) := by positivity
  have ht2 : (R * Real.sqrt (1 / ((1 - R + 1e-20) * (1 + R + 1e-20)))) ^ 2 ≤ 729 / 147 := by
    rw [mul_pow, Real.sq_sqrt (by positivity : (0 : ℝ) ≤ 1 / ((1 - R + 1e-20) * (1 + R + 1e-20)))]
    have h1 : 1 / ((1 - R + 1e-20) * (1 + R + 1e-20)) ≤ 1 / (1 - R ^ 2) := by
      apply one_div_le_one_div_of_le
      · linarith
      · exact hDge
    calc R ^ 2 * (1 / ((1 - R + 1e-20) * (1 + R + 1e-20)))
        ≤ R ^ 2 * (1 / (1 - R ^ 2)) := by
          apply mul_le_mul_of_nonneg_left h1 (by positivity)
      _ = 729 / 147 := by
          rw [hR2]
          norm_num
  have ht5 : R * Real.sqrt (1 / ((1 - R + 1e-20) * (1 + R + 1e-20))) ≤ 5 := by
    nlinarith [ht0, ht2, sq_nonneg (R * Real.sqrt (1 / ((1 - R + 1e-20) * (1 + R + 1e-20))) - 5)]
  have hp : lrP [(0 : ℝ), 1, 2] [(1 : ℝ), 2, 10] > 0.05 := by
    unfold lrP
    rw [ht, show ([(0 : ℝ), 1, 2].length - 2 : ℕ) = 1 from rfl]
    exact pOne_gt_of_le ht0 ht5
  unfold trendOfCounts
  simp only [List.length_cons, List.length_nil]
  rw [if_neg (by omega)]
  simp only [show (0 + 1 + 1 + 1 : ℕ) = 3 from rfl, range3, hmap]
  rw [if_pos hp]

theorem calculateTrend_eq (dates : List Ymd) :
    calculateTrend dates = trendOfCounts (monthlyCounts dates) := rfl

/-- C2 amended: trend classification returns insufficient-data below 3
monthly buckets, stable when the two-sided p-value of the fitted slope
exceeds 0.05, increasing when the p-value is at most 0.05 with positive
slope, and decreasing otherwise; a perfectly flat series of any length
at least 3 is stable, and an exactly linearly increasing three-month
series is increasing. A merely monotone series need not be increasing
(see the counterexample). -/
theorem C2_trend_classification_amended :
    (∀ dates : List Ymd, (monthlyCounts dates).length < 3 →
      calculateTrend dates = "insufficient_data") ∧
    (∀ dates : List Ymd, 3 ≤ (monthlyCounts dates).length →
      (lrP (idxList (monthlyCounts dates).length)
          ((monthlyCounts dates).map fun k : ℕ => (k : ℝ)) > 0.05 →
        calculateTrend dates = "stable") ∧
      (lrP (idxList (monthlyCounts dates).length)
          ((monthlyCounts dates).map fun k : ℕ => (k : ℝ)) ≤ 0.05 →
        lrSlope (idxList (monthlyCounts dates).length)
          ((monthlyCounts dates).map fun k : ℕ => (k : ℝ)) > 0 →
        calculateTrend dates = "increasing") ∧
      (lrP (idxList (monthlyCounts dates).length)
          ((monthlyCounts dates).map fun k : ℕ => (k : ℝ)) ≤ 0.05 →
        lrSlope (idxList (monthlyCounts dates).length)
          ((monthlyCounts dates).map fun k : ℕ => (k : ℝ)) ≤ 0 →
        calculateTrend dates = "decreasing")) ∧
    (∀ (dates : List Ymd) (n c : ℕ), 3 ≤ n →
      monthlyCounts dates = List.replicate n c → calculateTrend dates = "stable") ∧
    (∀ (dates : List Ymd) (a d : ℕ), 1 ≤ d →
      monthlyCounts dates = [a, a + d, a + 2 * d] →
      calculateTrend dates = "increasing") := by
  refine ⟨?_, ?_, ?_, ?_⟩
  · intro dates h
    rw [calculateTrend_eq]
    exact trend_insufficient h
  · intro dates h
    refine ⟨?_, ?_, ?_⟩
    · intro hp
      rw [calculateTrend_eq]
      unfold trendOfCounts
      rw [if_neg (by omega), if_pos hp]
    · intro hp hs
      rw [calculateTrend_eq]
      unfold trendOfCounts
      rw [if_neg (by omega), if_neg (not_lt.mpr hp), if_pos hs]
    · intro hp hs
      rw [calculateTrend_eq]
      unfold trendOfCounts
      rw [if_neg (by omega), if_neg (not_lt.mpr hp), if_neg (not_lt.mpr hs)]
  · intro dates n c h hmc
    rw [calculateTrend_eq, hmc]
    exact trend_flat h
  · intro dates a d hd hmc
    rw [calculateTrend_eq, hmc]
    exact trend_arith hd

/-- C2 counterexample: a strictly increasing monthly series 1, 2, 10
over three consecutive months classifies as stable, because the slope
has two-sided p-value about 0.27, above the 0.05 cut; so the claim that
every monotonically increasing monthly series yields increasing is
false. -/
theorem C2_trend_monotone_counterexample :
    sortAsc (dedupKeep (c2dates.map monthKey)) = [24241, 24242, 24243] ∧
    monthlyCounts c2dates = [1, 2, 10] ∧
    strictIncr (monthlyCounts c2dates) = true ∧
    calculateTrend c2dates = "stable" := by
  refine ⟨by decide, by decide, by decide, ?_⟩
  rw [calculateTrend_eq, show monthlyCounts c2dates = [1, 2, 10] by decide]
  exact trend_cex

theorem C2_trend_classification_amended_witness :
    (monthlyCounts c2flatDates = List.replicate 3 2 ∧
      calculateTrend c2flatDates = "stable") ∧
    (monthlyCounts c2arithDates = [1, 1 + 1, 1 + 2 * 1] ∧
      calculateTrend c2arithDates = "increasing") := by
  refine ⟨⟨by decide, ?_⟩, ⟨by decide, ?_⟩⟩
  · exact C2_trend_classification_amended.2.2.1 c2flatDates 3 2 (by norm_num) (by decide)
  · exact C2_trend_classification_amended.2.2.2 c2arithDates 1 1 (by norm_num) (by decide)
